import Mathlib

/-!
# Life: the grid update engine of `lifeGrid.cpp`

A shallow embedding of `UpdateGrid`, `CheckForNeighbors`, `OnBoard` and
`IsDirectionOccupied` (src/lifeGrid.cpp), of the loaders and menus
`GetGridFromFile`, `GetOneRow`, `GenerateRandomGrid`, `isMatch`, `AskForChoice`
(src/life.cpp) and of the comparison functions `NodeCompare`, `ArcCompare`
(src/cs106/graphpriv.cpp, src/cs106/graphimpl.cpp), followed by theorems about
them.

Modelling conventions.

* `gridLifeT` is `Grid<int>` of the CS106 library header `grid.h`, which is not
  part of the sources.  It is modelled as the two dimensions together with a
  total cell function; the accessors `Grid.get` / `Grid.set` perform the
  library's bounds check and fail with an error outside
  `[0, numRows) x [0, numCols)`.
* `Error(...)` of the CS106 library ends the program; it is modelled by
  `Except.error`.
* C++ `int` values are modelled by `Int`.  No overflow can occur in the modelled
  code: an age is incremented only when it is below `MaxAge`, the neighbour
  count is at most 9 additions of 0 or 1, and coordinates are moved by at most 1
  from an index below the grid dimension.
* `MaxAge` is a constant of `lifeGraphics.h`, which is not part of the sources;
  it is a parameter of every definition that uses it.
-/

namespace Life

/-- The CS106 `Grid<int>`: dimensions and cell contents. -/
structure Grid where
  numRows : Nat
  numCols : Nat
  cell : Nat → Nat → Int

namespace Grid

/-- The bounds check performed by `gridLife[row][col]`. -/
def inBounds (g : Grid) (row col : Int) : Bool :=
  decide (0 ≤ row) && decide (row < (g.numRows : Int)) &&
    decide (0 ≤ col) && decide (col < (g.numCols : Int))

/-- Reading `gridLife[row][col]`. -/
def get (g : Grid) (row col : Int) : Except String Int :=
  if g.inBounds row col then
    Except.ok (g.cell row.toNat col.toNat)
  else
    Except.error "Attempt to access location outside of grid bounds"

/-- Writing `gridLife[row][col] = v`. -/
def set (g : Grid) (row col : Int) (v : Int) : Except String Grid :=
  if g.inBounds row col then
    Except.ok
      { numRows := g.numRows
        numCols := g.numCols
        cell := fun r c => if r = row.toNat ∧ c = col.toNat then v else g.cell r c }
  else
    Except.error "Attempt to access location outside of grid bounds"

/-- A grid given by its rows (used for concrete examples); cells that the lists
do not cover are 0. -/
def ofRows (nRows nCols : Nat) (rows : List (List Int)) : Grid :=
  { numRows := nRows
    numCols := nCols
    cell := fun r c => (rows.getD r []).getD c 0 }

end Grid

/-- `OnBoard` (lifeGrid.cpp 191-194). -/
def OnBoard (row col nRows nCols : Int) : Bool :=
  decide (row ≥ 0) && decide (row < nRows) && decide (col ≥ 0) && decide (col < nCols)

/-- `IsDirectionOccupied` (lifeGrid.cpp 215-254). -/
def IsDirectionOccupied (gridLife : Grid) (row col simMode dRow dCol nRows nCols : Int) :
    Except String Bool :=
  if dRow = 0 ∧ dCol = 0 then Except.ok false
  else
    let row1 := row + dRow
    let col1 := col + dCol
    if simMode = 0 then
      if OnBoard row1 col1 nRows nCols then
        (gridLife.get row1 col1).bind fun v => Except.ok (decide (v > 0))
      else Except.ok false
    else if simMode = 1 then
      let row2 := if row1 < 0 then nRows - 1 else if row1 = nRows then 0 else row1
      let col2 := if col1 < 0 then nCols - 1 else if col1 = nCols then 0 else col1
      (gridLife.get row2 col2).bind fun v => Except.ok (decide (v > 0))
    else if simMode = 2 then
      let row2 := if row1 < 0 then 0 else if row1 = nRows then nRows - 1 else row1
      let col2 := if col1 < 0 then 0 else if col1 = nCols then nCols - 1 else col1
      (gridLife.get row2 col2).bind fun v => Except.ok (decide (v > 0))
    else Except.error "Bad simMode detected"

/-- The offsets visited by the loops `for (d = -1; d <= 1; d++)`. -/
def offsets : List Int := [-1, 0, 1]

/-- `CheckForNeighbors` (lifeGrid.cpp 172-181). -/
def CheckForNeighbors (gridLife : Grid) (row col simMode nRows nCols : Int) :
    Except String Int :=
  offsets.foldlM
    (fun count dRow =>
      offsets.foldlM
        (fun count dCol =>
          (IsDirectionOccupied gridLife row col simMode dRow dCol nRows nCols).bind
            fun b => Except.ok (count + (if b then 1 else 0)))
        count)
    0

/-- The body of the inner loop of `UpdateGrid` (lifeGrid.cpp 145-166) at cell
`(i, j)`: the state is the live grid and the flag `isStabilized`; `gridLife2`
is the copy taken on entry. -/
def updateCell (MaxAge : Int) (gridLife2 : Grid) (simMode : Int) (rows cols : Nat)
    (i j : Nat) (st : Grid × Bool) : Except String (Grid × Bool) :=
  (CheckForNeighbors gridLife2 i j simMode rows cols).bind fun neighbors =>
  (st.1.get i j).bind fun age =>
  (if neighbors = 2 then
      if age < MaxAge then
        (st.1.get i j).bind fun cur => st.1.set i j (cur + (if age ≠ 0 then 1 else 0))
      else Except.ok st.1
    else if neighbors = 3 then
      if age < MaxAge then
        (st.1.get i j).bind fun cur => st.1.set i j (cur + 1)
      else Except.ok st.1
    else st.1.set i j 0).bind fun g1 =>
  (g1.get i j).bind fun age1 =>
  if st.2 && (decide (age1 > 0) && decide (age1 < MaxAge)) then
    Except.ok (g1, false)
  else Except.ok (g1, st.2)

/-- `UpdateGrid` (lifeGrid.cpp 137-170): the grid is passed by reference and
mutated, so the result is the final grid together with the returned flag. -/
def UpdateGrid (MaxAge : Int) (gridLife : Grid) (simMode : Int) :
    Except String (Grid × Bool) :=
  let gridLife2 := gridLife
  let rows := gridLife.numRows
  let cols := gridLife.numCols
  (List.range rows).foldlM
    (fun st i =>
      (List.range cols).foldlM
        (fun st j => updateCell MaxAge gridLife2 simMode rows cols i j st)
        st)
    (gridLife, true)

/-! ## Pure counterparts used in the statements and proofs -/

/-- The DONUT coordinate adjustment of `IsDirectionOccupied` (lines 223-234). -/
def wrapCoord (x n : Int) : Int :=
  if x < 0 then n - 1 else if x = n then 0 else x

/-- The MIRROR coordinate adjustment of `IsDirectionOccupied` (lines 237-248). -/
def clampCoord (x n : Int) : Int :=
  if x < 0 then 0 else if x = n then n - 1 else x

/-- The value `IsDirectionOccupied` computes for a mode in 0, 1, 2 when every
read is inside the grid: the same branches, with the cell read directly. -/
def dirOccupied (g : Grid) (simMode row col dRow dCol : Int) : Bool :=
  if dRow = 0 ∧ dCol = 0 then false
  else if simMode = 0 then
    OnBoard (row + dRow) (col + dCol) g.numRows g.numCols &&
      decide (g.cell (row + dRow).toNat (col + dCol).toNat > 0)
  else if simMode = 1 then
    decide (g.cell (wrapCoord (row + dRow) g.numRows).toNat
      (wrapCoord (col + dCol) g.numCols).toNat > 0)
  else
    decide (g.cell (clampCoord (row + dRow) g.numRows).toNat
      (clampCoord (col + dCol) g.numCols).toNat > 0)

/-- The value of `CheckForNeighbors`: the nine directions in loop order. -/
def neighborCount (g : Grid) (simMode row col : Int) : Int :=
  (offsets.map fun dRow =>
    (offsets.map fun dCol =>
      if dirOccupied g simMode row col dRow dCol then (1 : Int) else 0).sum).sum

/-- The age written by the `switch` of `UpdateGrid` (lines 147-161) for a cell
of age `age` with `neighbors` occupied neighbours. -/
def ageTransition (MaxAge age neighbors : Int) : Int :=
  if neighbors = 2 then
    if age < MaxAge then age + (if age ≠ 0 then 1 else 0) else age
  else if neighbors = 3 then
    if age < MaxAge then age + 1 else age
  else 0

/-- The age-transition rule in the words of section 4.2 of the specification:
with 2 neighbours a live cell below `MaxAge` ages by 1 and any other cell keeps
its age; with 3 neighbours a cell below `MaxAge` ages by 1; otherwise the cell
dies. -/
def specAgeRule (MaxAge age neighbors : Int) : Int :=
  if neighbors = 2 then
    if age > 0 ∧ age < MaxAge then age + 1 else age
  else if neighbors = 3 then
    if age < MaxAge then age + 1 else age
  else 0

/-- The test of line 163: the cell is alive and not yet at `MaxAge`. -/
def inTransition (MaxAge age : Int) : Bool :=
  decide (age > 0) && decide (age < MaxAge)

/-- The age of cell `(r, c)` after a step in which every neighbour count is
taken in the pre-step grid `g`. -/
def nextAge (MaxAge : Int) (g : Grid) (simMode : Int) (r c : Nat) : Int :=
  ageTransition MaxAge (g.cell r c) (neighborCount g simMode r c)

/-- Simultaneous update, grid part: every cell of the grid is replaced by its
next age computed from the pre-step grid alone. -/
def simultaneousGrid (MaxAge : Int) (g : Grid) (simMode : Int) : Grid :=
  { numRows := g.numRows
    numCols := g.numCols
    cell := fun r c =>
      if r < g.numRows ∧ c < g.numCols then nextAge MaxAge g simMode r c else g.cell r c }

/-- Simultaneous update, flag part: no cell of the new grid is in transition. -/
def simultaneousStable (MaxAge : Int) (g : Grid) (simMode : Int) : Bool :=
  (List.range g.numRows).all fun r =>
    (List.range g.numCols).all fun c => !inTransition MaxAge (nextAge MaxAge g simMode r c)

/-- Simultaneous (two-buffer) update of section 4.3 of the specification. -/
def simultaneousUpdate (MaxAge : Int) (g : Grid) (simMode : Int) : Grid × Bool :=
  (simultaneousGrid MaxAge g simMode, simultaneousStable MaxAge g simMode)

/-- The coordinate that `IsDirectionOccupied` reads for the moved coordinate `x`
on an axis of length `n`: unchanged in mode 0, wrapped in mode 1, clamped
otherwise. -/
def resolveCoord (simMode x n : Int) : Int :=
  if simMode = 0 then x else if simMode = 1 then wrapCoord x n else clampCoord x n

/-- Whether the moved coordinate `x` resolves to an index of the axis that
satisfies `P`. -/
def lineHit (P : Nat → Bool) (simMode x n : Int) : Bool :=
  decide (0 ≤ resolveCoord simMode x n) && decide (resolveCoord simMode x n < n) &&
    P (resolveCoord simMode x n).toNat

/-- Number of the eight directions hit when the rows hit are `a b c` (for
`dRow = -1, 0, 1`) and the columns hit are `x y z` (for `dCol = -1, 0, 1`). -/
def prodCount (a b c x y z : Bool) : Int :=
  (if a && x then 1 else 0) + (if a && y then 1 else 0) + (if a && z then 1 else 0) +
  (if b && x then 1 else 0) + (if b && z then 1 else 0) +
  (if c && x then 1 else 0) + (if c && y then 1 else 0) + (if c && z then 1 else 0)

/-- A grid with one cell overwritten. -/
def writeCell (g : Grid) (i j : Nat) (v : Int) : Grid :=
  { numRows := g.numRows
    numCols := g.numCols
    cell := fun r c => if r = i ∧ c = j then v else g.cell r c }

/-- State of the pass of `UpdateGrid` over `g` when the rows before `i` and the
first `n` cells of row `i` have been processed. -/
def PassInv (MaxAge : Int) (g : Grid) (simMode : Int) (i n : Nat) (st : Grid × Bool) : Prop :=
  st.1.numRows = g.numRows ∧ st.1.numCols = g.numCols ∧
  (∀ r c, st.1.cell r c =
    if (r < i ∧ c < g.numCols) ∨ (r = i ∧ c < n) then nextAge MaxAge g simMode r c
    else g.cell r c) ∧
  (st.2 = true ↔ ∀ r c, (r < i ∧ c < g.numCols) ∨ (r = i ∧ c < n) →
    inTransition MaxAge (nextAge MaxAge g simMode r c) = false)

/-- Repeated steps: `UpdateGrid` applied `n` times in a row, as the loops of
`RunLifeSim` do, keeping the grid. -/
def UpdateGridTimes (MaxAge : Int) (simMode : Int) : Nat → Grid → Except String Grid
  | 0, g => Except.ok g
  | n + 1, g => (UpdateGrid MaxAge g simMode).bind fun r => UpdateGridTimes MaxAge simMode n r.1

/-- Still-life condition on a grid: every non-zero cell has 2 or 3 occupied
neighbours and no zero cell has exactly 3. -/
def StillLife (g : Grid) (simMode : Int) : Prop :=
  ∀ i j : Nat, i < g.numRows → j < g.numCols →
    (g.cell i j ≠ 0 →
      CheckForNeighbors g i j simMode g.numRows g.numCols = Except.ok 2 ∨
      CheckForNeighbors g i j simMode g.numRows g.numCols = Except.ok 3) ∧
    (g.cell i j = 0 →
      CheckForNeighbors g i j simMode g.numRows g.numCols ≠ Except.ok 3)

/-! ## The neighbour counter in the words of section 4.1 of the specification -/

/-- The eight offsets of the Moore neighbourhood: the pairs of `-1, 0, 1` other
than `(0, 0)`. -/
def mooreOffsets : List (Int × Int) :=
  [(-1, -1), (-1, 0), (-1, 1), (0, -1), (0, 1), (1, -1), (1, 0), (1, 1)]

/-- PLATEAU count of section 4.1: the number of offsets whose position lies
inside the grid and holds a value above 0. -/
def plateauCount (g : Grid) (row col : Int) : Nat :=
  mooreOffsets.countP fun d =>
    decide (0 ≤ row + d.1 ∧ row + d.1 < g.numRows ∧ 0 ≤ col + d.2 ∧ col + d.2 < g.numCols) &&
      decide (g.cell (row + d.1).toNat (col + d.2).toNat > 0)

/-- DONUT count of section 4.1: the number of offsets for which the cell at the
position taken modulo the dimensions holds a value above 0. -/
def donutCount (g : Grid) (row col : Int) : Nat :=
  mooreOffsets.countP fun d =>
    decide (g.cell ((row + d.1) % g.numRows).toNat ((col + d.2) % g.numCols).toNat > 0)

/-- The value `x` clamped to the interval `[lo, hi]`. -/
def clamp (x lo hi : Int) : Int := max lo (min x hi)

/-- MIRROR count of section 4.1: the number of offsets for which the cell at the
position clamped to the grid holds a value above 0. -/
def mirrorCount (g : Grid) (row col : Int) : Nat :=
  mooreOffsets.countP fun d =>
    decide (g.cell (clamp (row + d.1) 0 (g.numRows - 1)).toNat
      (clamp (col + d.2) 0 (g.numCols - 1)).toNat > 0)

/-- The coordinates of the grid read performed by `IsDirectionOccupied`, `none`
when it ends without reading the grid: the branches of the function, with the
read replaced by its coordinates. -/
def readTarget (simMode row col dRow dCol nRows nCols : Int) : Option (Int × Int) :=
  if dRow = 0 ∧ dCol = 0 then none
  else
    let row1 := row + dRow
    let col1 := col + dCol
    if simMode = 0 then
      if OnBoard row1 col1 nRows nCols then some (row1, col1) else none
    else if simMode = 1 then
      some (if row1 < 0 then nRows - 1 else if row1 = nRows then 0 else row1,
        if col1 < 0 then nCols - 1 else if col1 = nCols then 0 else col1)
    else if simMode = 2 then
      some (if row1 < 0 then 0 else if row1 = nRows then nRows - 1 else row1,
        if col1 < 0 then 0 else if col1 = nCols then nCols - 1 else col1)
    else none

/-- The grid with rows and columns exchanged. -/
def Grid.transpose (g : Grid) : Grid :=
  { numRows := g.numCols
    numCols := g.numRows
    cell := fun r c => g.cell c r }

/-! ## The loaders of `life.cpp` -/

/-- `Grid::resize` of the CS106 library (not part of the sources): the grid gets
the given dimensions and newly allocated cells, whose contents `fresh` are not
specified; a size that is not positive is an error.  The theorems below resize
to positive sizes only. -/
def Grid.resize (fresh : Nat → Nat → Int) (nRows nCols : Int) : Except String Grid :=
  if nRows ≤ 0 ∨ nCols ≤ 0 then Except.error "Attempt to resize grid to invalid size"
  else Except.ok { numRows := nRows.toNat, numCols := nCols.toNat, cell := fresh }

/-- The bytes that a `std::string` holds for a line of text: its characters in
UTF-8, one byte for an ASCII character and two to four for any other. -/
def lineBytes (line : String) : List Nat :=
  (line.data.flatMap String.utf8EncodeChar).map UInt8.toNat

/-- The character `line[i]` of a C++ string: the byte at index `i`, and the
terminating NUL at `i = line.size()`.  Past `line.size()` the read is undefined
in C++; the value is NUL there as well. -/
def charAt (line : String) (i : Nat) : Char := Char.ofNat ((lineBytes line).getD i 0)

/-- The age that `GetOneRow` stores for column `i` of a row-string. -/
def rowAge (line : String) (i : Nat) : Int := if charAt line i = 'X' then 1 else 0

/-- `GetOneRow` (life.cpp 212-222). -/
def GetOneRow (line : String) (theGrid : Grid) (currentRow : Int) : Except String Grid :=
  (List.range theGrid.numCols).foldlM
    (fun (g : Grid) (i : Nat) => g.set currentRow i (if charAt line i = 'X' then 1 else 0))
    theGrid

/-- The local variables of `GetGridFromFile` that live across iterations of its
loop: `theGrid`, `gridSize.row`, `gotRow` and `currentRow` (`gridSize.col` is
only written and passed on to `resize` at once). -/
structure LoaderState where
  theGrid : Grid
  row : Int
  gotRow : Bool
  currentRow : Int

/-- One iteration of the loop of `GetGridFromFile` (life.cpp 188-205) on a line
that `getline` has read.  `StringToInteger` is the function of the CS106 library
`strutils.h`, which is not part of the sources. -/
def loaderStep (StringToInteger : String → Except String Int) (fresh : Nat → Nat → Int)
    (st : LoaderState) (line : String) : Except String LoaderState :=
  if charAt line 0 = 'X' ∨ charAt line 0 = '-' then
    (GetOneRow line st.theGrid st.currentRow).bind fun g =>
      Except.ok
        { theGrid := g, row := st.row, gotRow := st.gotRow, currentRow := st.currentRow + 1 }
  else if charAt line 0 = '#' then Except.ok st
  else
    (StringToInteger line).bind fun param =>
      if st.gotRow then
        (Grid.resize fresh st.row param).bind fun g =>
          Except.ok
            { theGrid := g, row := st.row, gotRow := st.gotRow, currentRow := st.currentRow }
      else
        Except.ok
          { theGrid := st.theGrid, row := param, gotRow := true, currentRow := st.currentRow }

/-- `GetGridFromFile` (life.cpp 173-210) on the lines of the file.  The grid is
empty at the start; `gridSize.row` is not initialised and not read before it is
assigned, it starts as 0 here. -/
def GetGridFromFile (StringToInteger : String → Except String Int) (fresh : Nat → Nat → Int)
    (lines : List String) : Except String Grid :=
  (lines.foldlM (loaderStep StringToInteger fresh)
    { theGrid := { numRows := 0, numCols := 0, cell := fun _ _ => 0 }
      row := 0
      gotRow := false
      currentRow := 0 }).bind fun st => Except.ok st.theGrid

/-- A line that the loader treats as a comment. -/
def isComment (line : String) : Bool := decide (charAt line 0 = '#')

/-- `MAX_ROW` (life.cpp 48). -/
def MAX_ROW : Int := 70

/-- `MAX_COL` (life.cpp 49). -/
def MAX_COL : Int := 90

/-- The body of the inner loop of `GenerateRandomGrid` (life.cpp 233-236) at
cell `(i, j)`.  `RandomInteger n low high` is the value returned by the `n`-th
call of the library function `RandomInteger(low, high)`; the state is the grid
and the number of calls made so far. -/
def randomCell (RandomInteger : Nat → Int → Int → Int) (i j : Nat) (st : Grid × Nat) :
    Except String (Grid × Nat) :=
  (st.1.set i j (RandomInteger st.2 0 1)).bind fun g1 =>
  (g1.get i j).bind fun v =>
  if v > 0 then
    (g1.set i j (RandomInteger (st.2 + 1) 1 12)).bind fun g2 => Except.ok (g2, st.2 + 2)
  else Except.ok (g1, st.2 + 1)

/-- `GenerateRandomGrid` (life.cpp 224-240). -/
def GenerateRandomGrid (RandomInteger : Nat → Int → Int → Int) (fresh : Nat → Nat → Int) :
    Except String Grid :=
  (Grid.resize fresh MAX_ROW MAX_COL).bind fun gridLife =>
  ((List.range gridLife.numRows).foldlM
    (fun st i =>
      (List.range gridLife.numCols).foldlM (fun st j => randomCell RandomInteger i j st) st)
    (gridLife, 0)).bind fun st => Except.ok st.1

/-- State of the loops of `GenerateRandomGrid` on a grid of `R` rows and `C`
columns when the rows before `i` and the first `n` cells of row `i` have been
filled. -/
def RandInv (R C i n : Nat) (st : Grid × Nat) : Prop :=
  st.1.numRows = R ∧ st.1.numCols = C ∧
  ∀ r c, (r < i ∧ c < C) ∨ (r = i ∧ c < n) →
    st.1.cell r c = 0 ∨ (1 ≤ st.1.cell r c ∧ st.1.cell r c ≤ 12)

/-! ## The menus of `life.cpp` -/

/-- `ConvertToUpperCase` of the CS106 library `strutils.h` (not part of the
sources): every character is mapped by `toupper`. -/
def ConvertToUpperCase (s : String) : String := String.mk (s.data.map Char.toUpper)

/-- The loop of `isMatch` (life.cpp 248-253) from index `i` on. -/
def isMatchFrom (choice : Char) : List Char → Nat → Int
  | [], _ => -1
  | c :: rest, i => if choice = c then (i : Int) else isMatchFrom choice rest (i + 1)

/-- `isMatch` (life.cpp 246-255). -/
def isMatch (choice : Char) (userChoice : List Char) : Int := isMatchFrom choice userChoice 0

/-- The loop of `AskForChoice` when the choices are numeric (life.cpp 283-293),
run on the values returned by the successive calls of `GetInteger`; `none` when
these end before an acceptable answer. -/
def askNumeric (comp1 comp2 : Int) : List Int → Option Int
  | [] => none
  | userFeedback :: rest =>
    if userFeedback < comp1 ∨ userFeedback > comp2 then askNumeric comp1 comp2 rest
    else some userFeedback

/-- The loop of `AskForChoice` when the choices are alphabetic (life.cpp
294-308), run on the lines returned by the successive calls of `GetLine`;
`none` when these end before an acceptable answer. -/
def askAlpha (userChoice : List Char) : List String → Option Int
  | [] => none
  | feedback :: rest =>
    if isMatch (charAt (ConvertToUpperCase feedback) 0) userChoice = -1 then
      askAlpha userChoice rest
    else some (isMatch (charAt (ConvertToUpperCase feedback) 0) userChoice)

/-- `AskForChoice` (life.cpp 263-312).  The user's answers are `integers` (what
`GetInteger` returns, call after call) and `lines` (what `GetLine` returns);
the result is `none` while the function is still asking.  Reading
`userChoice[0]` of an empty vector is an error of the CS106 `Vector`. -/
def AskForChoice (_messageOut : String) (choices : List String) (integers : List Int)
    (lines : List String) : Except String (Option Int) :=
  match choices.map fun c => charAt c 0 with
  | [] => Except.error "Vector index out of range"
  | first :: others =>
    if first.isDigit then
      Except.ok (askNumeric ((first.toNat : Int) - ('0'.toNat : Int))
        (((first :: others).getLastD first).toNat - ('0'.toNat : Int)) integers)
    else Except.ok (askAlpha (first :: others) lines)

/-- The choices of `GetSimSpeed` (life.cpp 318-321). -/
def speedChoices : List String :=
  ["1 = Ludicrous Speed!",
   "2 = Ow, my eyes hurt. Kick it back a notch.",
   "3 = That \"tortoise\" setting on your lawn mower.",
   "4 = PowerPoint mode"]

/-- The choices of `GetSimMode` (life.cpp 329-331). -/
def modeChoices : List String :=
  ["P = Plateau Mode (cells on edges just have fewer neighbors)",
   "D = Donut Mode (cells on edges wrap around to find neighbors)",
   "M = Mirror Mode (cells on edge reflect back to find neighbors)"]

/-- `GetSimSpeed` (life.cpp 314-323). -/
def GetSimSpeed (integers : List Int) (lines : List String) : Except String (Option Int) :=
  AskForChoice "You choose how fast to run the simulation." speedChoices integers lines

/-- `GetSimMode` (life.cpp 325-333). -/
def GetSimMode (integers : List Int) (lines : List String) : Except String (Option Int) :=
  AskForChoice "You choose how cells on the edges will count their neighbors." modeChoices
    integers lines

/-! ## The comparison functions of the Graph class -/

/-- A node behind a pointer: its address and its `name` field. -/
structure NodeRef where
  addr : Nat
  name : String

/-- An arc behind a pointer: its address and its `start` and `finish` fields. -/
structure ArcRef where
  addr : Nat
  start : NodeRef
  finish : NodeRef

/-- `NodeCompare` of graphpriv.cpp (11-15), the file that graph.h includes. -/
def NodeCompare (n1 n2 : NodeRef) : Int :=
  if n1.name = n2.name then 0
  else if n1.name < n2.name then -1 else 1

/-- `ArcCompare` of graphpriv.cpp (17-26), the file that graph.h includes. -/
def ArcCompare (a1 a2 : ArcRef) : Int :=
  if NodeCompare a1.start a2.start ≠ 0 then NodeCompare a1.start a2.start
  else NodeCompare a1.finish a2.finish

/-- `NodeCompare` of graphimpl.cpp (44-49), which graph.h does not include. -/
def GraphImpl.NodeCompare (n1 n2 : NodeRef) : Int :=
  if n1.addr = n2.addr then 0
  else if n1.name = n2.name then (if n1.addr < n2.addr then -1 else 1)
  else if n1.name < n2.name then -1 else 1

/-- `ArcCompare` of graphimpl.cpp (51-63), which graph.h does not include. -/
def GraphImpl.ArcCompare (a1 a2 : ArcRef) : Int :=
  if a1.addr = a2.addr then 0
  else if GraphImpl.NodeCompare a1.start a2.start ≠ 0 then
    GraphImpl.NodeCompare a1.start a2.start
  else if GraphImpl.NodeCompare a1.finish a2.finish ≠ 0 then
    GraphImpl.NodeCompare a1.finish a2.finish
  else if a1.addr < a2.addr then -1 else 1

/-- Two nodes at different addresses. -/
def nodeA : NodeRef := { addr := 100, name := "A" }

/-- The second node. -/
def nodeB : NodeRef := { addr := 200, name := "B" }

/-- A node at a third address with the name of `nodeA`. -/
def nodeA2 : NodeRef := { addr := 300, name := "A" }

/-- An arc from `nodeA` to `nodeB`. -/
def arcRoad : ArcRef := { addr := 1000, start := nodeA, finish := nodeB }

/-- Another arc, at another address, from `nodeA` to `nodeB`. -/
def arcRail : ArcRef := { addr := 2000, start := nodeA, finish := nodeB }

/-! ## Example grids -/

/-- A reader of unsigned decimal numerals, standing in for `StringToInteger` in
the examples. -/
def parseDecimal (s : String) : Except String Int :=
  if s.data ≠ [] ∧ s.data.all Char.isDigit = true then
    Except.ok ((s.data.foldl (fun n c => 10 * n + (c.toNat - 48)) 0 : Nat) : Int)
  else Except.error "StringToInteger called on illegal number format"

/-- A setup description of a 2 x 2 grid. -/
def setupRows : List String := ["X-", "-X"]

/-- Two row-strings of 4 bytes each; the first holds a two-byte character, so
its `X` is the byte at index 3. -/
def setupRowsWide : List String := ["-éX", "X---"]

/-- The setup description of `setupRows` with its dimension lines. -/
def setupLines : List String := ["2", "2", "X-", "-X"]

/-- The setup description of `setupLines` with comment lines before, between
and after its lines. -/
def setupCommented : List String :=
  ["# a 2 x 2 colony", "2", "#", "2", "# rows", "X-", "#X-", "-X", "# end"]

/-- A sequence of draws in which every call of `RandomInteger` returns its upper
bound. -/
def upperDraw : Nat → Int → Int → Int := fun _ _ high => high

/-- A 3 x 3 grid whose cell (1, 1) is dead and has three live neighbours. -/
def cornerTrio : Grid := Grid.ofRows 3 3 [[1, 1, 0], [1, 0, 0], [0, 0, 0]]

/-- A 3 x 3 grid holding a horizontal bar of three cells of age 1. -/
def bar3 : Grid := Grid.ofRows 3 3 [[0, 0, 0], [1, 1, 1], [0, 0, 0]]

/-- A 3 x 3 grid whose only live cell is the centre, at age 12. -/
def lonelyElder : Grid := Grid.ofRows 3 3 [[0, 0, 0], [0, 12, 0], [0, 0, 0]]

/-- A 3 x 3 grid holding a horizontal bar of three cells of age 12. -/
def elderBar : Grid := Grid.ofRows 3 3 [[0, 0, 0], [12, 12, 12], [0, 0, 0]]

/-- A 3 x 3 grid holding a diagonal of three cells of age 12. -/
def elderDiagonal : Grid := Grid.ofRows 3 3 [[12, 0, 0], [0, 12, 0], [0, 0, 12]]

/-- A 4 x 4 grid holding a 2 x 2 block of cells of age 12 away from the border. -/
def elderBlock : Grid :=
  Grid.ofRows 4 4 [[0, 0, 0, 0], [0, 12, 12, 0], [0, 12, 12, 0], [0, 0, 0, 0]]

/-- A 3 x 3 grid whose only live cell is the corner (0, 0), at age 1. -/
def cornerCell : Grid := Grid.ofRows 3 3 [[1, 0, 0], [0, 0, 0], [0, 0, 0]]

/-- A 3 x 3 grid whose only live cell is the edge cell (0, 1), at age 1. -/
def edgeCell : Grid := Grid.ofRows 3 3 [[0, 1, 0], [0, 0, 0], [0, 0, 0]]

/-- A 4 x 4 grid holding a 2 x 2 block of cells of age 1 away from the border. -/
def youngBlock : Grid :=
  Grid.ofRows 4 4 [[0, 0, 0, 0], [0, 1, 1, 0], [0, 1, 1, 0], [0, 0, 0, 0]]

/-- A 3 x 3 grid in which every cell is alive with age 1. -/
def fullGrid : Grid := Grid.ofRows 3 3 [[1, 1, 1], [1, 1, 1], [1, 1, 1]]

/-- A 3 x 3 grid in which every cell is dead. -/
def deadGrid : Grid := Grid.ofRows 3 3 [[0, 0, 0], [0, 0, 0], [0, 0, 0]]

/-! ## Basic lemmas -/

theorem Grid.ext_cells (g h : Grid) (hr : g.numRows = h.numRows) (hc : g.numCols = h.numCols)
    (hcell : ∀ r c, g.cell r c = h.cell r c) : g = h := by
  cases g; cases h
  simp only [Grid.mk.injEq] at *
  exact ⟨hr, hc, funext fun r => funext fun c => hcell r c⟩

theorem Grid.inBounds_natCast (g : Grid) (i j : Nat) (hi : i < g.numRows) (hj : j < g.numCols) :
    g.inBounds (i : Int) (j : Int) = true := by
  simp [Grid.inBounds, hi, hj]

theorem Grid.get_natCast (g : Grid) (i j : Nat) (hi : i < g.numRows) (hj : j < g.numCols) :
    g.get (i : Int) (j : Int) = Except.ok (g.cell i j) := by
  simp [Grid.get, Grid.inBounds_natCast g i j hi hj]

theorem Grid.set_natCast (g : Grid) (i j : Nat) (v : Int) (hi : i < g.numRows)
    (hj : j < g.numCols) : g.set (i : Int) (j : Int) v = Except.ok (writeCell g i j v) := by
  simp [Grid.set, Grid.inBounds_natCast g i j hi hj, writeCell]

theorem writeCell_same (g : Grid) (i j : Nat) : writeCell g i j (g.cell i j) = g := by
  apply Grid.ext_cells <;> try rfl
  intro r c
  simp only [writeCell]
  split_ifs with h
  · rw [h.1, h.2]
  · rfl

/-- One iteration of the inner loop: the cell is overwritten by its transition
and the flag is cleared when the new age is in transition. -/
theorem updateCell_eq (MaxAge : Int) (gridLife2 : Grid) (simMode : Int) (rows cols i j : Nat)
    (st : Grid × Bool) (n : Int)
    (hn : CheckForNeighbors gridLife2 i j simMode rows cols = Except.ok n)
    (hi : i < st.1.numRows) (hj : j < st.1.numCols) :
    updateCell MaxAge gridLife2 simMode rows cols i j st =
      Except.ok (writeCell st.1 i j (ageTransition MaxAge (st.1.cell i j) n),
        st.2 && !inTransition MaxAge (ageTransition MaxAge (st.1.cell i j) n)) := by
  obtain ⟨g, b⟩ := st
  simp only at hi hj
  have hget := Grid.get_natCast g i j hi hj
  have hset := fun v => Grid.set_natCast g i j v hi hj
  have hget2 : ∀ v, (writeCell g i j v).get (i : Int) (j : Int) = Except.ok v := by
    intro v
    rw [Grid.get_natCast (writeCell g i j v) i j hi hj]
    simp [writeCell]
  have hfin : ∀ v, ((writeCell g i j v).get (i : Int) (j : Int)).bind (fun age1 =>
      if b && (decide (age1 > 0) && decide (age1 < MaxAge)) then
        Except.ok (writeCell g i j v, false)
      else Except.ok (writeCell g i j v, b)) =
      Except.ok (writeCell g i j v, b && !inTransition MaxAge v) := by
    intro v
    rw [hget2 v]
    simp only [Except.bind, inTransition]
    cases b <;> cases decide (v > 0) <;> cases decide (v < MaxAge) <;> rfl
  simp only [updateCell, hn, hget, Except.bind, ageTransition]
  by_cases h2 : n = 2
  · by_cases ha : g.cell i j < MaxAge
    · simp only [h2, ha, if_true, hset]
      exact hfin _
    · simp only [h2, ha, if_true, if_false]
      rw [writeCell_same, hget]
      simp only [inTransition]
      cases b <;> cases decide (g.cell i j > 0) <;> cases decide (g.cell i j < MaxAge) <;> rfl
  · by_cases h3 : n = 3
    · by_cases ha : g.cell i j < MaxAge
      · simp only [h3, ha, if_true, hset]
        simp only [show ((3 : Int) = 2) = False from by simp, if_false]
        exact hfin _
      · simp only [h3, ha, if_true, if_false]
        simp only [show ((3 : Int) = 2) = False from by simp, if_false]
        rw [writeCell_same, hget]
        simp only [inTransition]
        cases b <;> cases decide (g.cell i j > 0) <;> cases decide (g.cell i j < MaxAge) <;> rfl
    · simp only [h2, h3, if_false, hset]
      exact hfin _

theorem Grid.get_of_inBounds (g : Grid) (r c : Int) (h : g.inBounds r c = true) :
    g.get r c = Except.ok (g.cell r.toNat c.toNat) := by
  simp [Grid.get, h]

theorem wrapCoord_range (x n : Int) (h1 : x ≤ n) (hn : 0 < n) :
    0 ≤ wrapCoord x n ∧ wrapCoord x n < n := by
  unfold wrapCoord
  split_ifs <;> omega

theorem clampCoord_range (x n : Int) (h1 : x ≤ n) (hn : 0 < n) :
    0 ≤ clampCoord x n ∧ clampCoord x n < n := by
  unfold clampCoord
  split_ifs <;> omega

/-- For a cell of the grid, a direction in -1, 0, 1 and a mode in 0, 1, 2,
`IsDirectionOccupied` returns normally, with the value `dirOccupied`. -/
theorem IsDirectionOccupied_eq (g : Grid) (simMode : Int) (i j : Nat) (dRow dCol : Int)
    (hm : simMode = 0 ∨ simMode = 1 ∨ simMode = 2)
    (hi : i < g.numRows) (hj : j < g.numCols)
    (hdr : dRow = -1 ∨ dRow = 0 ∨ dRow = 1) (hdc : dCol = -1 ∨ dCol = 0 ∨ dCol = 1) :
    IsDirectionOccupied g i j simMode dRow dCol g.numRows g.numCols =
      Except.ok (dirOccupied g simMode i j dRow dCol) := by
  have hi2 : (i : Int) < g.numRows := by exact_mod_cast hi
  have hj2 : (j : Int) < g.numCols := by exact_mod_cast hj
  have hi0 : (0 : Int) ≤ i := Int.natCast_nonneg i
  have hj0 : (0 : Int) ≤ j := Int.natCast_nonneg j
  unfold IsDirectionOccupied dirOccupied
  by_cases hz : dRow = 0 ∧ dCol = 0
  · simp only [hz, and_self, if_true]
  · simp only [hz, if_false]
    rcases hm with hm | hm | hm
    · subst hm
      simp only [if_true]
      by_cases hb : OnBoard (i + dRow) (j + dCol) g.numRows g.numCols = true
      · have hin : g.inBounds (i + dRow) (j + dCol) = true := by
          simpa [OnBoard, Grid.inBounds] using hb
        simp only [hb, if_true, Grid.get_of_inBounds g _ _ hin, Except.bind, Bool.true_and]
      · simp only [Bool.not_eq_true] at hb
        simp [hb]
    · subst hm
      simp only [show ((1 : Int) = 0) = False from by simp, if_false, if_true]
      have hr := wrapCoord_range (i + dRow) g.numRows (by omega) (by omega)
      have hc := wrapCoord_range (j + dCol) g.numCols (by omega) (by omega)
      have hin : g.inBounds (wrapCoord (i + dRow) g.numRows)
          (wrapCoord (j + dCol) g.numCols) = true := by
        simp [Grid.inBounds, hr.1, hr.2, hc.1, hc.2]
      have := Grid.get_of_inBounds g _ _ hin
      simp only [wrapCoord] at this
      simp only [this, Except.bind, wrapCoord]
    · subst hm
      simp only [show ((2 : Int) = 0) = False from by simp,
        show ((2 : Int) = 1) = False from by simp, if_false, if_true]
      have hr := clampCoord_range (i + dRow) g.numRows (by omega) (by omega)
      have hc := clampCoord_range (j + dCol) g.numCols (by omega) (by omega)
      have hin : g.inBounds (clampCoord (i + dRow) g.numRows)
          (clampCoord (j + dCol) g.numCols) = true := by
        simp [Grid.inBounds, hr.1, hr.2, hc.1, hc.2]
      have := Grid.get_of_inBounds g _ _ hin
      simp only [clampCoord] at this
      simp only [this, Except.bind, clampCoord]

/-- For a cell of the grid and a mode in 0, 1, 2, `CheckForNeighbors` returns
normally, with the value `neighborCount`. -/
theorem CheckForNeighbors_eq (g : Grid) (simMode : Int) (i j : Nat)
    (hm : simMode = 0 ∨ simMode = 1 ∨ simMode = 2)
    (hi : i < g.numRows) (hj : j < g.numCols) :
    CheckForNeighbors g i j simMode g.numRows g.numCols =
      Except.ok (neighborCount g simMode i j) := by
  have h := fun (dRow dCol : Int) hdr hdc =>
    IsDirectionOccupied_eq g simMode i j dRow dCol hm hi hj hdr hdc
  simp only [CheckForNeighbors, neighborCount, offsets, List.foldlM_cons, List.foldlM_nil,
    List.map_cons, List.map_nil, List.sum_cons, List.sum_nil]
  rw [h (-1) (-1) (by simp) (by simp), h (-1) 0 (by simp) (by simp),
    h (-1) 1 (by simp) (by simp), h 0 (-1) (by simp) (by simp), h 0 0 (by simp) (by simp),
    h 0 1 (by simp) (by simp), h 1 (-1) (by simp) (by simp), h 1 0 (by simp) (by simp),
    h 1 1 (by simp) (by simp)]
  simp only [Except.bind, bind, pure, Except.pure]
  congr 1
  ring

/-! ## The in-place pass -/

/-- Invariant rule for a loop `for (k = 0; k < n; k++)` run in the error monad. -/
theorem foldlM_range_inv {σ : Type} (f : σ → Nat → Except String σ) (Inv : Nat → σ → Prop)
    (n : Nat)
    (hstep : ∀ k, k < n → ∀ s, Inv k s → ∃ s2, f s k = Except.ok s2 ∧ Inv (k + 1) s2)
    (s0 : σ) (h0 : Inv 0 s0) :
    ∃ s2, (List.range n).foldlM f s0 = Except.ok s2 ∧ Inv n s2 := by
  induction n with
  | zero => exact ⟨s0, rfl, h0⟩
  | succ m ih =>
    obtain ⟨s1, hs1, hinv1⟩ := ih (fun k hk s hs => hstep k (Nat.lt_succ_of_lt hk) s hs)
    obtain ⟨s2, hs2, hinv2⟩ := hstep m (Nat.lt_succ_self m) s1 hinv1
    refine ⟨s2, ?_, hinv2⟩
    rw [List.range_succ, List.foldlM_append, hs1]
    simp only [List.foldlM_cons, List.foldlM_nil, bind, Except.bind, hs2]
    rfl

theorem PassInv_cell_step (MaxAge : Int) (g : Grid) (simMode : Int) (i j : Nat)
    (hm : simMode = 0 ∨ simMode = 1 ∨ simMode = 2)
    (hi : i < g.numRows) (hj : j < g.numCols) (st : Grid × Bool)
    (hinv : PassInv MaxAge g simMode i j st) :
    ∃ s2, updateCell MaxAge g simMode g.numRows g.numCols i j st = Except.ok s2 ∧
      PassInv MaxAge g simMode i (j + 1) s2 := by
  obtain ⟨hr, hc, hcell, hflag⟩ := hinv
  have hcur : st.1.cell i j = g.cell i j := by
    have : ¬((i < i ∧ j < g.numCols) ∨ (i = i ∧ j < j)) := by omega
    rw [hcell i j, if_neg this]
  refine ⟨_, updateCell_eq MaxAge g simMode g.numRows g.numCols i j st _
    (CheckForNeighbors_eq g simMode i j hm hi hj) (hr ▸ hi) (hc ▸ hj), ?_⟩
  rw [hcur]
  refine ⟨hr, hc, ?_, ?_⟩
  · intro r c
    simp only [writeCell]
    by_cases hrc : r = i ∧ c = j
    · have : (r < i ∧ c < g.numCols) ∨ (r = i ∧ c < j + 1) := by omega
      rw [if_pos hrc, if_pos this, hrc.1, hrc.2]
      rfl
    · have : ((r < i ∧ c < g.numCols) ∨ (r = i ∧ c < j + 1)) ↔
          ((r < i ∧ c < g.numCols) ∨ (r = i ∧ c < j)) := by omega
      rw [if_neg hrc, hcell r c]
      simp only [this]
  · simp only [Bool.and_eq_true, Bool.not_eq_true', hflag]
    constructor
    · rintro ⟨hall, hnew⟩ r c hrc
      by_cases hij : r = i ∧ c = j
      · rw [hij.1, hij.2]
        exact hnew
      · exact hall r c (by omega)
    · intro hall
      exact ⟨fun r c hrc => hall r c (by omega), hall i j (by omega)⟩

theorem PassInv_row_step (MaxAge : Int) (g : Grid) (simMode : Int) (i : Nat)
    (hm : simMode = 0 ∨ simMode = 1 ∨ simMode = 2)
    (hi : i < g.numRows) (st : Grid × Bool) (hinv : PassInv MaxAge g simMode i 0 st) :
    ∃ s2, (List.range g.numCols).foldlM
        (fun st j => updateCell MaxAge g simMode g.numRows g.numCols i j st) st = Except.ok s2 ∧
      PassInv MaxAge g simMode (i + 1) 0 s2 := by
  obtain ⟨s2, hs2, hinv2⟩ := foldlM_range_inv
    (fun st j => updateCell MaxAge g simMode g.numRows g.numCols i j st)
    (fun n st => PassInv MaxAge g simMode i n st) g.numCols
    (fun k hk s hs => PassInv_cell_step MaxAge g simMode i k hm hi hk s hs) st hinv
  refine ⟨s2, hs2, ?_⟩
  obtain ⟨hr, hc, hcell, hflag⟩ := hinv2
  have hdone : ∀ r c, ((r < i + 1 ∧ c < g.numCols) ∨ (r = i + 1 ∧ c < 0)) ↔
      ((r < i ∧ c < g.numCols) ∨ (r = i ∧ c < g.numCols)) := by
    intro r c; omega
  refine ⟨hr, hc, ?_, ?_⟩
  · intro r c
    rw [hcell r c]
    simp only [hdone r c]
  · rw [hflag]
    simp only [hdone]

/-- The in-place pass of `UpdateGrid` returns normally and computes the
simultaneous update of the pre-step grid. -/
theorem UpdateGrid_eq (MaxAge : Int) (g : Grid) (simMode : Int)
    (hm : simMode = 0 ∨ simMode = 1 ∨ simMode = 2) :
    UpdateGrid MaxAge g simMode = Except.ok (simultaneousUpdate MaxAge g simMode) := by
  have h0 : PassInv MaxAge g simMode 0 0 (g, true) := by
    refine ⟨rfl, rfl, ?_, ?_⟩
    · intro r c
      have : ¬((r < 0 ∧ c < g.numCols) ∨ (r = 0 ∧ c < 0)) := by omega
      simp only [this, if_false]
    · simp only [true_iff]
      intro r c hrc
      omega
  obtain ⟨s2, hs2, hinv2⟩ := foldlM_range_inv
    (fun st i => (List.range g.numCols).foldlM
      (fun st j => updateCell MaxAge g simMode g.numRows g.numCols i j st) st)
    (fun i st => PassInv MaxAge g simMode i 0 st) g.numRows
    (fun k hk s hs => PassInv_row_step MaxAge g simMode k hm hk s hs) (g, true) h0
  have hU : UpdateGrid MaxAge g simMode = Except.ok s2 := hs2
  rw [hU]
  obtain ⟨g2, b2⟩ := s2
  obtain ⟨hr, hc, hcell, hflag⟩ := hinv2
  simp only at hr hc hcell hflag
  have hdone : ∀ r c, ((r < g.numRows ∧ c < g.numCols) ∨ (r = g.numRows ∧ c < 0)) ↔
      (r < g.numRows ∧ c < g.numCols) := by
    intro r c; omega
  congr 1
  simp only [simultaneousUpdate, Prod.mk.injEq]
  constructor
  · refine Grid.ext_cells g2 (simultaneousGrid MaxAge g simMode) hr hc ?_
    intro r c
    rw [hcell r c]
    simp only [hdone r c, simultaneousGrid]
  · rw [Bool.eq_iff_iff, hflag]
    simp only [hdone, simultaneousStable, List.all_eq_true, List.mem_range, Bool.not_eq_true']
    constructor
    · intro h r hr2 c hc2
      exact h r c ⟨hr2, hc2⟩
    · intro h r c hrc
      exact h r hrc.1 c hrc.2

/-! ## Consequences for single cells -/

theorem simultaneousGrid_cell (MaxAge : Int) (g : Grid) (simMode : Int) (i j : Nat) (n : Int)
    (hm : simMode = 0 ∨ simMode = 1 ∨ simMode = 2)
    (hi : i < g.numRows) (hj : j < g.numCols)
    (hn : CheckForNeighbors g i j simMode g.numRows g.numCols = Except.ok n) :
    (simultaneousGrid MaxAge g simMode).cell i j = ageTransition MaxAge (g.cell i j) n := by
  have h := CheckForNeighbors_eq g simMode i j hm hi hj
  rw [hn] at h
  injection h with h
  simp only [simultaneousGrid, hi, hj, and_self, if_true, nextAge, h]

theorem simultaneousGrid_cell_count (MaxAge : Int) (g : Grid) (simMode : Int) (i j : Nat)
    (hi : i < g.numRows) (hj : j < g.numCols) :
    (simultaneousGrid MaxAge g simMode).cell i j =
      ageTransition MaxAge (g.cell i j) (neighborCount g simMode i j) := by
  simp only [simultaneousGrid, hi, hj, and_self, if_true, nextAge]

theorem simultaneousStable_iff (MaxAge : Int) (g : Grid) (simMode : Int) :
    simultaneousStable MaxAge g simMode = true ↔
      ∀ i j, i < g.numRows → j < g.numCols →
        ¬(0 < (simultaneousGrid MaxAge g simMode).cell i j ∧
          (simultaneousGrid MaxAge g simMode).cell i j < MaxAge) := by
  simp only [simultaneousStable, List.all_eq_true, List.mem_range, Bool.not_eq_true',
    inTransition, Bool.and_eq_false_imp, decide_eq_true_eq, decide_eq_false_iff_not]
  constructor
  · intro h i j hi hj
    rw [simultaneousGrid_cell_count MaxAge g simMode i j hi hj]
    intro hh
    exact h i hi j hj hh.1 hh.2
  · intro h i hi j hj h0 h1
    have := h i j hi hj
    rw [simultaneousGrid_cell_count MaxAge g simMode i j hi hj] at this
    exact this ⟨h0, h1⟩

theorem ageTransition_eq_spec (MaxAge age n : Int) (h0 : 0 ≤ age) :
    ageTransition MaxAge age n = specAgeRule MaxAge age n := by
  unfold ageTransition specAgeRule
  split_ifs <;> omega

/-! ## Fixed points -/

theorem StillLife_iff_count (g : Grid) (simMode : Int)
    (hm : simMode = 0 ∨ simMode = 1 ∨ simMode = 2) :
    StillLife g simMode ↔ ∀ i j : Nat, i < g.numRows → j < g.numCols →
      (g.cell i j ≠ 0 → neighborCount g simMode i j = 2 ∨ neighborCount g simMode i j = 3) ∧
      (g.cell i j = 0 → neighborCount g simMode i j ≠ 3) := by
  unfold StillLife
  constructor
  · intro h i j hi hj
    have := h i j hi hj
    rw [CheckForNeighbors_eq g simMode i j hm hi hj] at this
    simpa using this
  · intro h i j hi hj
    rw [CheckForNeighbors_eq g simMode i j hm hi hj]
    simpa using h i j hi hj

/-- A grid of cells 0 or `MaxAge` that satisfies the still-life condition is left
as it is by `UpdateGrid`, which returns `true`. -/
theorem still_life_fixed (MaxAge : Int) (g : Grid) (simMode : Int)
    (hm : simMode = 0 ∨ simMode = 1 ∨ simMode = 2)
    (hcells : ∀ i j, i < g.numRows → j < g.numCols → g.cell i j = 0 ∨ g.cell i j = MaxAge)
    (hstill : StillLife g simMode) :
    UpdateGrid MaxAge g simMode = Except.ok (g, true) := by
  rw [StillLife_iff_count g simMode hm] at hstill
  have hcell : ∀ i j, i < g.numRows → j < g.numCols →
      (simultaneousGrid MaxAge g simMode).cell i j = g.cell i j := by
    intro i j hi hj
    rw [simultaneousGrid_cell_count MaxAge g simMode i j hi hj]
    have h1 := hcells i j hi hj
    have h2 := hstill i j hi hj
    unfold ageTransition
    by_cases h0 : g.cell i j = 0
    · have := h2.2 h0
      split_ifs <;> omega
    · rcases h2.1 h0 with h | h
      · rw [if_pos h, if_neg (by omega)]
      · rw [if_neg (by omega), if_pos h, if_neg (by omega)]
  rw [UpdateGrid_eq MaxAge g simMode hm]
  congr 1
  simp only [simultaneousUpdate, Prod.mk.injEq]
  constructor
  · refine Grid.ext_cells _ _ rfl rfl ?_
    intro r c
    by_cases hrc : r < g.numRows ∧ c < g.numCols
    · exact hcell r c hrc.1 hrc.2
    · simp only [simultaneousGrid, hrc, if_false]
  · rw [simultaneousStable_iff]
    intro i j hi hj
    rw [hcell i j hi hj]
    have := hcells i j hi hj
    omega

theorem still_life_fixed_times (MaxAge : Int) (g : Grid) (simMode : Int)
    (h : UpdateGrid MaxAge g simMode = Except.ok (g, true)) (n : Nat) :
    UpdateGridTimes MaxAge simMode n g = Except.ok g := by
  induction n with
  | zero => rfl
  | succ m ih => simp only [UpdateGridTimes, h, Except.bind, ih]

theorem elderBlock_still : StillLife elderBlock 0 := by
  rw [StillLife_iff_count elderBlock 0 (Or.inl rfl)]
  intro i j hi hj
  have hi4 : i < 4 := hi
  have hj4 : j < 4 := hj
  interval_cases i <;> interval_cases j <;> decide

theorem elderBlock_cells :
    ∀ i j, i < elderBlock.numRows → j < elderBlock.numCols →
      elderBlock.cell i j = 0 ∨ elderBlock.cell i j = 12 := by
  intro i j hi hj
  have hi4 : i < 4 := hi
  have hj4 : j < 4 := hj
  interval_cases i <;> interval_cases j <;> decide

/-- When `UpdateGrid` leaves a grid of cells 0 or `MaxAge` as it is and
`MaxAge >= 1`, the grid satisfies the still-life condition. -/
theorem fixed_is_still_life (MaxAge : Int) (g : Grid) (simMode : Int) (b : Bool)
    (hm : simMode = 0 ∨ simMode = 1 ∨ simMode = 2) (hM : 1 ≤ MaxAge)
    (hcells : ∀ i j, i < g.numRows → j < g.numCols → g.cell i j = 0 ∨ g.cell i j = MaxAge)
    (hfix : UpdateGrid MaxAge g simMode = Except.ok (g, b)) :
    StillLife g simMode := by
  rw [UpdateGrid_eq MaxAge g simMode hm] at hfix
  injection hfix with hfix
  simp only [simultaneousUpdate, Prod.mk.injEq] at hfix
  rw [StillLife_iff_count g simMode hm]
  intro i j hi hj
  have hc := simultaneousGrid_cell_count MaxAge g simMode i j hi hj
  rw [hfix.1] at hc
  have h1 := hcells i j hi hj
  unfold ageTransition at hc
  constructor
  · intro h0
    by_contra hne
    rw [if_neg (by omega), if_neg (by omega)] at hc
    exact h0 hc
  · intro h0 h3
    rw [if_neg (by omega), if_pos h3, if_pos (by omega)] at hc
    omega

/-- When `UpdateGrid` returns `true` on a grid with ages in `[0, MaxAge]`, every
cell of the grid it leaves is 0 or `MaxAge`. -/
theorem stable_cells_saturated (MaxAge : Int) (g g1 : Grid) (simMode : Int)
    (hm : simMode = 0 ∨ simMode = 1 ∨ simMode = 2)
    (hrange : ∀ i j, i < g.numRows → j < g.numCols → 0 ≤ g.cell i j ∧ g.cell i j ≤ MaxAge)
    (hret : UpdateGrid MaxAge g simMode = Except.ok (g1, true)) :
    ∀ i j, i < g1.numRows → j < g1.numCols → g1.cell i j = 0 ∨ g1.cell i j = MaxAge := by
  rw [UpdateGrid_eq MaxAge g simMode hm] at hret
  injection hret with hret
  simp only [simultaneousUpdate, Prod.mk.injEq] at hret
  obtain ⟨hg, hb⟩ := hret
  rw [simultaneousStable_iff, hg] at hb
  intro i j hi hj
  have hi2 : i < g.numRows := by rw [← hg] at hi; exact hi
  have hj2 : j < g.numCols := by rw [← hg] at hj; exact hj
  have h1 := hb i j hi2 hj2
  have h2 : 0 ≤ g1.cell i j ∧ g1.cell i j ≤ MaxAge := by
    rw [← hg, simultaneousGrid_cell_count MaxAge g simMode i j hi2 hj2]
    have := hrange i j hi2 hj2
    unfold ageTransition
    split_ifs <;> omega
  omega

/-! ## Counting on grids whose live cells form a product set -/

theorem dirOccupied_product (g : Grid) (simMode : Int) (i j : Nat) (dRow dCol : Int)
    (P Q : Nat → Bool) (hm : simMode = 0 ∨ simMode = 1 ∨ simMode = 2)
    (hi : i < g.numRows) (hj : j < g.numCols)
    (hdr : dRow = -1 ∨ dRow = 0 ∨ dRow = 1) (hdc : dCol = -1 ∨ dCol = 0 ∨ dCol = 1)
    (hz : ¬(dRow = 0 ∧ dCol = 0))
    (hPQ : ∀ r c, r < g.numRows → c < g.numCols → decide (g.cell r c > 0) = (P r && Q c)) :
    dirOccupied g simMode i j dRow dCol =
      (lineHit P simMode (i + dRow) g.numRows && lineHit Q simMode (j + dCol) g.numCols) := by
  have hi2 : (i : Int) < g.numRows := by exact_mod_cast hi
  have hj2 : (j : Int) < g.numCols := by exact_mod_cast hj
  have hi0 : (0 : Int) ≤ i := Int.natCast_nonneg i
  have hj0 : (0 : Int) ≤ j := Int.natCast_nonneg j
  have key : ∀ x y : Int, 0 ≤ x → x < g.numRows → 0 ≤ y → y < g.numCols →
      decide (g.cell x.toNat y.toNat > 0) = (P x.toNat && Q y.toNat) := by
    intro x y hx0 hx1 hy0 hy1
    exact hPQ x.toNat y.toNat (by omega) (by omega)
  unfold dirOccupied lineHit
  rw [if_neg hz]
  rcases hm with hm | hm | hm
  · subst hm
    simp only [resolveCoord, if_true, OnBoard]
    by_cases h1 : 0 ≤ (i : Int) + dRow
    · by_cases h2 : (i : Int) + dRow < g.numRows
      · by_cases h3 : 0 ≤ (j : Int) + dCol
        · by_cases h4 : (j : Int) + dCol < g.numCols
          · rw [key _ _ h1 h2 h3 h4]
            simp [h1, h2, h3, h4]
          · simp [h4]
        · simp [h3]
      · simp [h2]
    · simp [h1]
  · subst hm
    have hr := wrapCoord_range (i + dRow) g.numRows (by omega) (by omega)
    have hc := wrapCoord_range (j + dCol) g.numCols (by omega) (by omega)
    simp only [resolveCoord, show ((1 : Int) = 0) = False from by simp, if_false, if_true]
    rw [key _ _ hr.1 hr.2 hc.1 hc.2]
    simp [hr.1, hr.2, hc.1, hc.2]
  · subst hm
    have hr := clampCoord_range (i + dRow) g.numRows (by omega) (by omega)
    have hc := clampCoord_range (j + dCol) g.numCols (by omega) (by omega)
    simp only [resolveCoord, show ((2 : Int) = 0) = False from by simp,
      show ((2 : Int) = 1) = False from by simp, if_false]
    rw [key _ _ hr.1 hr.2 hc.1 hc.2]
    simp [hr.1, hr.2, hc.1, hc.2]

theorem neighborCount_product (g : Grid) (simMode : Int) (i j : Nat) (P Q : Nat → Bool)
    (hm : simMode = 0 ∨ simMode = 1 ∨ simMode = 2)
    (hi : i < g.numRows) (hj : j < g.numCols)
    (hPQ : ∀ r c, r < g.numRows → c < g.numCols → decide (g.cell r c > 0) = (P r && Q c)) :
    neighborCount g simMode i j =
      prodCount (lineHit P simMode (i + -1) g.numRows) (lineHit P simMode (i + 0) g.numRows)
        (lineHit P simMode (i + 1) g.numRows) (lineHit Q simMode (j + -1) g.numCols)
        (lineHit Q simMode (j + 0) g.numCols) (lineHit Q simMode (j + 1) g.numCols) := by
  have h := fun (dRow dCol : Int) hdr hdc hz =>
    dirOccupied_product g simMode i j dRow dCol P Q hm hi hj hdr hdc hz hPQ
  have h00 : dirOccupied g simMode i j 0 0 = false := by simp [dirOccupied]
  simp only [neighborCount, offsets, List.map_cons, List.map_nil, List.sum_cons, List.sum_nil]
  rw [h (-1) (-1) (by simp) (by simp) (by simp), h (-1) 0 (by simp) (by simp) (by simp),
    h (-1) 1 (by simp) (by simp) (by simp), h 0 (-1) (by simp) (by simp) (by simp), h00,
    h 0 1 (by simp) (by simp) (by simp), h 1 (-1) (by simp) (by simp) (by simp),
    h 1 0 (by simp) (by simp) (by simp), h 1 1 (by simp) (by simp) (by simp)]
  simp only [prodCount, Bool.false_eq_true, if_false]
  ring

theorem prodCount_ne_three (a b c x y z : Bool) (h1 : ¬(a = true ∧ c = true))
    (h2 : ¬(x = true ∧ z = true)) (h3 : ¬(b = true ∧ y = true)) :
    prodCount a b c x y z ≠ 3 := by
  revert h1 h2 h3
  cases a <;> cases b <;> cases c <;> cases x <;> cases y <;> cases z <;> decide

theorem prodCount_center_alone (a c x z : Bool) (h1 : ¬(a = true ∧ c = true))
    (h2 : ¬(x = true ∧ z = true))
    (h3 : ¬((a = true ∨ c = true) ∧ (x = true ∨ z = true))) :
    prodCount a true c x true z ≠ 2 ∧ prodCount a true c x true z ≠ 3 := by
  revert h1 h2 h3
  cases a <;> cases c <;> cases x <;> cases z <;> decide

theorem prodCount_block (a c x z : Bool) (h1 : a = !c) (h2 : x = !z) :
    prodCount a true c x true z = 3 := by
  subst h1 h2
  cases c <;> cases z <;> decide

theorem lineHit_eq_true (P : Nat → Bool) (simMode x n : Int) :
    lineHit P simMode x n = true ↔
      0 ≤ resolveCoord simMode x n ∧ resolveCoord simMode x n < n ∧
        P (resolveCoord simMode x n).toNat = true := by
  simp only [lineHit, Bool.and_eq_true, decide_eq_true_eq, and_assoc]

theorem lineHit_single (simMode x : Int) (n r0 : Nat) (hr : r0 < n) :
    lineHit (fun k => decide (k = r0)) simMode x n = true ↔
      resolveCoord simMode x n = r0 := by
  rw [lineHit_eq_true]
  generalize resolveCoord simMode x n = y
  simp only [decide_eq_true_eq]
  omega

theorem lineHit_pair (simMode x : Int) (n r : Nat) (hr : r + 1 < n) :
    lineHit (fun k => decide (k = r ∨ k = r + 1)) simMode x n = true ↔
      (resolveCoord simMode x n = r ∨ resolveCoord simMode x n = r + 1) := by
  rw [lineHit_eq_true]
  generalize resolveCoord simMode x n = y
  simp only [decide_eq_true_eq]
  omega

/-- Rows (or columns) hit from index `i` on an axis of length `n >= 3` when the
only live index is `r0`. -/
theorem single_line_facts (simMode : Int) (n i r0 : Nat)
    (hm : simMode = 0 ∨ simMode = 1 ∨ simMode = 2) (hn : 3 ≤ n) (hi : i < n) (hr : r0 < n) :
    ¬(lineHit (fun k => decide (k = r0)) simMode (i + -1) n = true ∧
      lineHit (fun k => decide (k = r0)) simMode (i + 1) n = true) ∧
    (lineHit (fun k => decide (k = r0)) simMode (i + 0) n = true ↔ i = r0) ∧
    (i = r0 →
      (lineHit (fun k => decide (k = r0)) simMode (i + -1) n = true ∨
        lineHit (fun k => decide (k = r0)) simMode (i + 1) n = true) →
      simMode = 2 ∧ (r0 = 0 ∨ r0 + 1 = n)) := by
  simp only [lineHit_single _ _ n r0 hr]
  rcases hm with hm | hm | hm <;> subst hm <;>
    simp only [resolveCoord, wrapCoord, clampCoord, show ((1 : Int) = 0) = False from by simp,
      show ((2 : Int) = 0) = False from by simp, show ((2 : Int) = 1) = False from by simp,
      if_true, if_false, true_and] <;>
    refine ⟨?_, ?_, ?_⟩ <;> (try split_ifs) <;> omega

/-- Rows (or columns) hit in PLATEAU mode from index `i` when the live indices
are `r` and `r + 1`. -/
theorem block_line_facts (n i r : Nat) (hr : r + 1 < n) :
    ¬(lineHit (fun k => decide (k = r ∨ k = r + 1)) 0 (i + -1) n = true ∧
      lineHit (fun k => decide (k = r ∨ k = r + 1)) 0 (i + 1) n = true) ∧
    (lineHit (fun k => decide (k = r ∨ k = r + 1)) 0 (i + 0) n = true ↔ (i = r ∨ i = r + 1)) ∧
    ((i = r ∨ i = r + 1) →
      lineHit (fun k => decide (k = r ∨ k = r + 1)) 0 (i + -1) n =
        !lineHit (fun k => decide (k = r ∨ k = r + 1)) 0 (i + 1) n) := by
  refine ⟨?_, ?_, ?_⟩
  · simp only [lineHit_pair _ _ n r hr, resolveCoord, if_true]
    omega
  · simp only [lineHit_pair _ _ n r hr, resolveCoord, if_true]
    omega
  · intro h
    rw [Bool.eq_iff_iff]
    simp only [Bool.not_eq_true', ← Bool.not_eq_true, lineHit_pair _ _ n r hr,
      resolveCoord, if_true]
    omega

/-- In MIRROR mode a live index on the border of the axis is hit a second time,
from exactly one side. -/
theorem mirror_border_line (n r0 : Nat) (hn : 3 ≤ n) (hr : r0 < n)
    (hb : r0 = 0 ∨ r0 + 1 = n) :
    lineHit (fun k => decide (k = r0)) 2 (r0 + -1) n =
      !lineHit (fun k => decide (k = r0)) 2 (r0 + 1) n := by
  rw [Bool.eq_iff_iff]
  simp only [Bool.not_eq_true', ← Bool.not_eq_true, lineHit_single _ _ n r0 hr,
    resolveCoord, clampCoord, show ((2 : Int) = 0) = False from by simp,
    show ((2 : Int) = 1) = False from by simp, if_false]
  split_ifs <;> omega

theorem single_cell_product (g : Grid) (r0 c0 : Nat)
    (hcells : ∀ i j, i < g.numRows → j < g.numCols →
      g.cell i j = if i = r0 ∧ j = c0 then 1 else 0) :
    ∀ r c, r < g.numRows → c < g.numCols →
      decide (g.cell r c > 0) = (decide (r = r0) && decide (c = c0)) := by
  intro r c hr hc
  rw [hcells r c hr hc, Bool.eq_iff_iff]
  simp only [Bool.and_eq_true, decide_eq_true_eq]
  split_ifs with h
  · simp [h]
  · simp only [gt_iff_lt, lt_self_iff_false, false_iff]
    exact h

theorem ageTransition_dead (MaxAge n : Int) (hn : n ≠ 3) : ageTransition MaxAge 0 n = 0 := by
  unfold ageTransition
  split_ifs <;> omega

theorem ageTransition_dies (MaxAge age n : Int) (h2 : n ≠ 2) (h3 : n ≠ 3) :
    ageTransition MaxAge age n = 0 := by
  unfold ageTransition
  rw [if_neg h2, if_neg h3]

/-- On a grid of at least 3 x 3 whose only live cell is `(r0, c0)`, the step
leaves every cell dead, unless the mode is MIRROR and the cell is a corner. -/
theorem single_cell_next_dead (MaxAge : Int) (g : Grid) (simMode : Int) (r0 c0 : Nat)
    (hm : simMode = 0 ∨ simMode = 1 ∨ simMode = 2)
    (hrows : 3 ≤ g.numRows) (hcols : 3 ≤ g.numCols)
    (hr0 : r0 < g.numRows) (hc0 : c0 < g.numCols)
    (hcells : ∀ i j, i < g.numRows → j < g.numCols →
      g.cell i j = if i = r0 ∧ j = c0 then 1 else 0)
    (hcorner : ¬(simMode = 2 ∧ (r0 = 0 ∨ r0 + 1 = g.numRows) ∧ (c0 = 0 ∨ c0 + 1 = g.numCols))) :
    ∀ i j, i < g.numRows → j < g.numCols → (simultaneousGrid MaxAge g simMode).cell i j = 0 := by
  intro i j hi hj
  rw [simultaneousGrid_cell_count MaxAge g simMode i j hi hj,
    neighborCount_product g simMode i j _ _ hm hi hj (single_cell_product g r0 c0 hcells)]
  obtain ⟨hR1, hR2, hR3⟩ := single_line_facts simMode g.numRows i r0 hm hrows hi hr0
  obtain ⟨hC1, hC2, hC3⟩ := single_line_facts simMode g.numCols j c0 hm hcols hj hc0
  by_cases hij : i = r0 ∧ j = c0
  · rw [hR2.mpr hij.1, hC2.mpr hij.2]
    have h3 : ¬((lineHit (fun k => decide (k = r0)) simMode (i + -1) g.numRows = true ∨
        lineHit (fun k => decide (k = r0)) simMode (i + 1) g.numRows = true) ∧
        (lineHit (fun k => decide (k = c0)) simMode (j + -1) g.numCols = true ∨
        lineHit (fun k => decide (k = c0)) simMode (j + 1) g.numCols = true)) := by
      rintro ⟨ha, hb⟩
      exact hcorner ⟨(hR3 hij.1 ha).1, (hR3 hij.1 ha).2, (hC3 hij.2 hb).2⟩
    have := prodCount_center_alone _ _ _ _ hR1 hC1 h3
    exact ageTransition_dies MaxAge _ _ this.1 this.2
  · have h3 : ¬(lineHit (fun k => decide (k = r0)) simMode (i + 0) g.numRows = true ∧
        lineHit (fun k => decide (k = c0)) simMode (j + 0) g.numCols = true) := by
      rintro ⟨ha, hb⟩
      exact hij ⟨hR2.mp ha, hC2.mp hb⟩
    have hcell : g.cell i j = 0 := by rw [hcells i j hi hj, if_neg hij]
    rw [hcell]
    exact ageTransition_dead MaxAge _ (prodCount_ne_three _ _ _ _ _ _ hR1 hC1 h3)

/-- In MIRROR mode a lone live cell in a corner of a grid of at least 3 x 3 has
neighbour count 3. -/
theorem mirror_corner_count (g : Grid) (r0 c0 : Nat)
    (hrows : 3 ≤ g.numRows) (hcols : 3 ≤ g.numCols)
    (hr0 : r0 < g.numRows) (hc0 : c0 < g.numCols)
    (hcells : ∀ i j, i < g.numRows → j < g.numCols →
      g.cell i j = if i = r0 ∧ j = c0 then 1 else 0)
    (hr : r0 = 0 ∨ r0 + 1 = g.numRows) (hc : c0 = 0 ∨ c0 + 1 = g.numCols) :
    neighborCount g 2 r0 c0 = 3 := by
  have hm : (2 : Int) = 0 ∨ (2 : Int) = 1 ∨ (2 : Int) = 2 := Or.inr (Or.inr rfl)
  rw [neighborCount_product g 2 r0 c0 _ _ hm hr0 hc0 (single_cell_product g r0 c0 hcells)]
  obtain ⟨_, hR2, _⟩ := single_line_facts 2 g.numRows r0 r0 hm hrows hr0 hr0
  obtain ⟨_, hC2, _⟩ := single_line_facts 2 g.numCols c0 c0 hm hcols hc0 hc0
  rw [hR2.mpr rfl, hC2.mpr rfl]
  exact prodCount_block _ _ _ _ (mirror_border_line g.numRows r0 hrows hr0 hr)
    (mirror_border_line g.numCols c0 hcols hc0 hc)

theorem block_product (g : Grid) (r c : Nat) (a : Int) (ha : 1 ≤ a)
    (hcells : ∀ i j, i < g.numRows → j < g.numCols →
      g.cell i j = if (i = r ∨ i = r + 1) ∧ (j = c ∨ j = c + 1) then a else 0) :
    ∀ i j, i < g.numRows → j < g.numCols →
      decide (g.cell i j > 0) =
        (decide (i = r ∨ i = r + 1) && decide (j = c ∨ j = c + 1)) := by
  intro i j hi hj
  rw [hcells i j hi hj, Bool.eq_iff_iff]
  simp only [Bool.and_eq_true, decide_eq_true_eq]
  split_ifs with h
  · simp only [h, and_self, iff_true]
    omega
  · simp only [gt_iff_lt, lt_self_iff_false, false_iff]
    exact h

/-- Next ages on a PLATEAU grid whose live cells are a 2 x 2 block of age `a`:
block cells have neighbour count 3, the other cells stay dead. -/
theorem block_next (MaxAge : Int) (g : Grid) (r c : Nat) (a : Int)
    (hr : r + 1 < g.numRows) (hc : c + 1 < g.numCols) (ha1 : 1 ≤ a)
    (hcells : ∀ i j, i < g.numRows → j < g.numCols →
      g.cell i j = if (i = r ∨ i = r + 1) ∧ (j = c ∨ j = c + 1) then a else 0) :
    ∀ i j, i < g.numRows → j < g.numCols →
      (((i = r ∨ i = r + 1) ∧ (j = c ∨ j = c + 1)) → neighborCount g 0 i j = 3) ∧
      (simultaneousGrid MaxAge g 0).cell i j =
        if (i = r ∨ i = r + 1) ∧ (j = c ∨ j = c + 1) then ageTransition MaxAge a 3 else 0 := by
  intro i j hi hj
  have hm : (0 : Int) = 0 ∨ (0 : Int) = 1 ∨ (0 : Int) = 2 := Or.inl rfl
  rw [simultaneousGrid_cell_count MaxAge g 0 i j hi hj,
    neighborCount_product g 0 i j _ _ hm hi hj (block_product g r c a ha1 hcells)]
  obtain ⟨hR1, hR2, hR3⟩ := block_line_facts g.numRows i r hr
  obtain ⟨hC1, hC2, hC3⟩ := block_line_facts g.numCols j c hc
  by_cases hij : (i = r ∨ i = r + 1) ∧ (j = c ∨ j = c + 1)
  · rw [hR2.mpr hij.1, hC2.mpr hij.2, prodCount_block _ _ _ _ (hR3 hij.1) (hC3 hij.2),
      hcells i j hi hj, if_pos hij, if_pos hij]
    exact ⟨fun _ => rfl, rfl⟩
  · have h3 : ¬(lineHit (fun k => decide (k = r ∨ k = r + 1)) 0 (i + 0) g.numRows = true ∧
        lineHit (fun k => decide (k = c ∨ k = c + 1)) 0 (j + 0) g.numCols = true) := by
      rintro ⟨hx, hy⟩
      exact hij ⟨hR2.mp hx, hC2.mp hy⟩
    rw [hcells i j hi hj, if_neg hij, if_neg hij]
    exact ⟨fun h => absurd h hij,
      ageTransition_dead MaxAge _ (prodCount_ne_three _ _ _ _ _ _ hR1 hC1 h3)⟩

theorem ageTransition_three (MaxAge a : Int) (ha : a ≤ MaxAge) :
    ageTransition MaxAge a 3 = min (a + 1) MaxAge := by
  unfold ageTransition
  rw [if_neg (by omega), if_pos rfl]
  split_ifs <;> omega

/-! ## The counts of section 4.1 -/

theorem mem_mooreOffsets (d : Int × Int) :
    d ∈ mooreOffsets ↔ d.1 ∈ offsets ∧ d.2 ∈ offsets ∧ d ≠ (0, 0) := by
  obtain ⟨a, b⟩ := d
  simp only [mooreOffsets, offsets, List.mem_cons, List.mem_singleton, Prod.mk.injEq,
    List.mem_nil_iff, or_false, ne_eq]
  constructor
  · rintro (h | h | h | h | h | h | h | h) <;> obtain ⟨rfl, rfl⟩ := h <;> decide
  · rintro ⟨h1 | h1 | h1, h2 | h2 | h2, h3⟩ <;> subst h1 <;> subst h2 <;> simp at h3 ⊢

theorem mooreOffsets_nodup : mooreOffsets.Nodup := by decide

/-- The count of `CheckForNeighbors` is the number of Moore offsets whose
direction is occupied. -/
theorem neighborCount_eq_countP (g : Grid) (simMode row col : Int) (p : Int × Int → Bool)
    (h : ∀ dRow dCol : Int, (dRow = -1 ∨ dRow = 0 ∨ dRow = 1) →
      (dCol = -1 ∨ dCol = 0 ∨ dCol = 1) → ¬(dRow = 0 ∧ dCol = 0) →
      dirOccupied g simMode row col dRow dCol = p (dRow, dCol)) :
    neighborCount g simMode row col = ((mooreOffsets.countP p : Nat) : Int) := by
  have h00 : dirOccupied g simMode row col 0 0 = false := by simp [dirOccupied]
  simp only [neighborCount, offsets, mooreOffsets, List.map_cons, List.map_nil, List.sum_cons,
    List.sum_nil, List.countP_cons, List.countP_nil]
  rw [h (-1) (-1) (by simp) (by simp) (by simp), h (-1) 0 (by simp) (by simp) (by simp),
    h (-1) 1 (by simp) (by simp) (by simp), h 0 (-1) (by simp) (by simp) (by simp), h00,
    h 0 1 (by simp) (by simp) (by simp), h 1 (-1) (by simp) (by simp) (by simp),
    h 1 0 (by simp) (by simp) (by simp), h 1 1 (by simp) (by simp) (by simp)]
  push_cast
  ring

theorem wrapCoord_eq_emod (x n : Int) (h0 : -1 ≤ x) (h1 : x ≤ n) (hn : 0 < n) :
    wrapCoord x n = x % n := by
  unfold wrapCoord
  split_ifs with ha hb
  · have hx : x = -1 := by omega
    subst hx
    rw [← Int.add_emod_self, Int.emod_eq_of_lt (by omega) (by omega)]
    omega
  · rw [hb, Int.emod_self]
  · rw [Int.emod_eq_of_lt (by omega) (by omega)]

theorem clampCoord_eq_clamp (x n : Int) (h0 : -1 ≤ x) (h1 : x ≤ n) (hn : 0 < n) :
    clampCoord x n = clamp x 0 (n - 1) := by
  unfold clampCoord clamp
  split_ifs <;> omega

theorem neighborCount_plateau (g : Grid) (row col : Int) :
    neighborCount g 0 row col = (plateauCount g row col : Int) := by
  refine neighborCount_eq_countP g 0 row col _ ?_
  intro dRow dCol _ _ hz
  simp only [dirOccupied, if_neg hz, if_true, OnBoard, ge_iff_le, Bool.decide_and]
  simp only [Bool.and_assoc]

theorem neighborCount_donut (g : Grid) (i j : Nat) (hi : i < g.numRows) (hj : j < g.numCols) :
    neighborCount g 1 i j = (donutCount g i j : Int) := by
  refine neighborCount_eq_countP g 1 i j _ ?_
  intro dRow dCol hdr hdc hz
  simp only [dirOccupied, if_neg hz, show ((1 : Int) = 0) = False from by simp, if_false,
    if_true]
  rw [wrapCoord_eq_emod (i + dRow) g.numRows (by omega) (by omega) (by omega),
    wrapCoord_eq_emod (j + dCol) g.numCols (by omega) (by omega) (by omega)]

theorem neighborCount_mirror (g : Grid) (i j : Nat) (hi : i < g.numRows) (hj : j < g.numCols) :
    neighborCount g 2 i j = (mirrorCount g i j : Int) := by
  refine neighborCount_eq_countP g 2 i j _ ?_
  intro dRow dCol hdr hdc hz
  simp only [dirOccupied, if_neg hz, show ((2 : Int) = 0) = False from by simp,
    show ((2 : Int) = 1) = False from by simp, if_false]
  rw [clampCoord_eq_clamp (i + dRow) g.numRows (by omega) (by omega) (by omega),
    clampCoord_eq_clamp (j + dCol) g.numCols (by omega) (by omega) (by omega)]

/-- For a cell whose Moore neighbourhood lies on the grid, every mode counts the
cells at the unmodified positions. -/
theorem neighborCount_interior (g : Grid) (simMode : Int) (i j : Nat)
    (hm : simMode = 0 ∨ simMode = 1 ∨ simMode = 2)
    (hi1 : 1 ≤ i) (hi2 : i + 1 < g.numRows) (hj1 : 1 ≤ j) (hj2 : j + 1 < g.numCols) :
    neighborCount g simMode i j =
      ((mooreOffsets.countP fun d =>
        decide (g.cell ((i : Int) + d.1).toNat ((j : Int) + d.2).toNat > 0) : Nat) : Int) := by
  refine neighborCount_eq_countP g simMode i j _ ?_
  intro dRow dCol hdr hdc hz
  have hw1 : wrapCoord (i + dRow) g.numRows = i + dRow := by
    unfold wrapCoord; split_ifs <;> omega
  have hw2 : wrapCoord (j + dCol) g.numCols = j + dCol := by
    unfold wrapCoord; split_ifs <;> omega
  have hc1 : clampCoord (i + dRow) g.numRows = i + dRow := by
    unfold clampCoord; split_ifs <;> omega
  have hc2 : clampCoord (j + dCol) g.numCols = j + dCol := by
    unfold clampCoord; split_ifs <;> omega
  have hb : OnBoard ((i : Int) + dRow) ((j : Int) + dCol) g.numRows g.numCols = true := by
    simp only [OnBoard, ge_iff_le, Bool.and_eq_true, decide_eq_true_eq]
    omega
  rcases hm with hm | hm | hm <;> subst hm
  · simp only [dirOccupied, if_neg hz, if_true, hb, Bool.true_and]
  · simp only [dirOccupied, if_neg hz, show ((1 : Int) = 0) = False from by simp, if_false,
      if_true, hw1, hw2]
  · simp only [dirOccupied, if_neg hz, show ((2 : Int) = 0) = False from by simp,
      show ((2 : Int) = 1) = False from by simp, if_false, hc1, hc2]

/-- Rows (or columns) that lie on the axis, seen from index 0 of an axis of
length at least 2: the index before 0 is off the axis in mode 0 only. -/
theorem corner_line_facts (n : Nat) (hn : 2 ≤ n) :
    lineHit (fun _ => true) 0 (((0 : Nat) : Int) + -1) n = false ∧
    lineHit (fun _ => true) 1 (((0 : Nat) : Int) + -1) n = true ∧
    lineHit (fun _ => true) 2 (((0 : Nat) : Int) + -1) n = true ∧
    (∀ simMode : Int, simMode = 0 ∨ simMode = 1 ∨ simMode = 2 →
      lineHit (fun _ => true) simMode (((0 : Nat) : Int) + 0) n = true ∧
      lineHit (fun _ => true) simMode (((0 : Nat) : Int) + 1) n = true) := by
  refine ⟨?_, ?_, ?_, ?_⟩
  · rw [Bool.eq_false_iff, Ne, lineHit_eq_true]
    simp only [resolveCoord, if_true]
    omega
  · rw [lineHit_eq_true]
    simp only [resolveCoord, wrapCoord, show ((1 : Int) = 0) = False from by simp, if_false,
      if_true, and_true]
    split_ifs <;> omega
  · rw [lineHit_eq_true]
    simp only [resolveCoord, clampCoord, show ((2 : Int) = 0) = False from by simp,
      show ((2 : Int) = 1) = False from by simp, if_false, and_true]
    split_ifs <;> omega
  · intro simMode hm
    simp only [lineHit_eq_true, and_true]
    rcases hm with hm | hm | hm <;> subst hm <;>
      simp only [resolveCoord, wrapCoord, clampCoord, show ((1 : Int) = 0) = False from by simp,
        show ((2 : Int) = 0) = False from by simp, show ((2 : Int) = 1) = False from by simp,
        if_true, if_false] <;>
      refine ⟨?_, ?_⟩ <;> (try split_ifs) <;> omega

/-- On a grid without live cells every neighbour count is 0. -/
theorem neighborCount_dead (g : Grid) (simMode : Int) (i j : Nat)
    (hm : simMode = 0 ∨ simMode = 1 ∨ simMode = 2)
    (hi : i < g.numRows) (hj : j < g.numCols)
    (hdead : ∀ r c, r < g.numRows → c < g.numCols → g.cell r c = 0) :
    neighborCount g simMode i j = 0 := by
  have hPQ : ∀ r c, r < g.numRows → c < g.numCols →
      decide (g.cell r c > 0) = ((fun _ => false) r && (fun _ => false) c) := by
    intro r c hr hc
    rw [hdead r c hr hc]
    rfl
  rw [neighborCount_product g simMode i j _ _ hm hi hj hPQ]
  simp [lineHit, prodCount]

theorem neighborCount_range (g : Grid) (simMode row col : Int) :
    0 ≤ neighborCount g simMode row col ∧ neighborCount g simMode row col ≤ 8 := by
  rw [neighborCount_eq_countP g simMode row col
    (fun d => dirOccupied g simMode row col d.1 d.2) (fun _ _ _ _ _ => rfl)]
  have h := List.countP_le_length (fun d : Int × Int => dirOccupied g simMode row col d.1 d.2)
    (l := mooreOffsets)
  have hl : mooreOffsets.length = 8 := rfl
  omega

theorem IsDirectionOccupied_center (g : Grid) (row col simMode nRows nCols : Int) :
    IsDirectionOccupied g row col simMode 0 0 nRows nCols = Except.ok false := by
  simp [IsDirectionOccupied]

/-! ## The bad-mode error -/

theorem IsDirectionOccupied_bad_mode (g : Grid) (row col simMode dRow dCol nRows nCols : Int)
    (hm : ¬(simMode = 0 ∨ simMode = 1 ∨ simMode = 2)) (hz : ¬(dRow = 0 ∧ dCol = 0)) :
    IsDirectionOccupied g row col simMode dRow dCol nRows nCols =
      Except.error "Bad simMode detected" := by
  have h0 : ¬simMode = 0 := fun h => hm (Or.inl h)
  have h1 : ¬simMode = 1 := fun h => hm (Or.inr (Or.inl h))
  have h2 : ¬simMode = 2 := fun h => hm (Or.inr (Or.inr h))
  simp only [IsDirectionOccupied, if_neg hz, if_neg h0, if_neg h1, if_neg h2]

theorem CheckForNeighbors_bad_mode (g : Grid) (row col simMode nRows nCols : Int)
    (hm : ¬(simMode = 0 ∨ simMode = 1 ∨ simMode = 2)) :
    CheckForNeighbors g row col simMode nRows nCols = Except.error "Bad simMode detected" := by
  simp only [CheckForNeighbors, offsets, List.foldlM_cons,
    IsDirectionOccupied_bad_mode g row col simMode (-1) (-1) nRows nCols hm (by simp)]
  rfl

/-- A loop that fails in its first iteration fails. -/
theorem foldlM_range_error {σ : Type} (f : σ → Nat → Except String σ) (n : Nat) (hn : 0 < n)
    (s0 : σ) (e : String) (h : f s0 0 = Except.error e) :
    (List.range n).foldlM f s0 = Except.error e := by
  obtain ⟨m, rfl⟩ : ∃ m, n = m + 1 := ⟨n - 1, by omega⟩
  rw [List.range_succ_eq_map, List.foldlM_cons, h]
  rfl

theorem UpdateGrid_bad_mode (MaxAge : Int) (g : Grid) (simMode : Int)
    (hm : ¬(simMode = 0 ∨ simMode = 1 ∨ simMode = 2))
    (hr : 0 < g.numRows) (hc : 0 < g.numCols) :
    UpdateGrid MaxAge g simMode = Except.error "Bad simMode detected" := by
  unfold UpdateGrid
  refine foldlM_range_error _ g.numRows hr _ _ ?_
  refine foldlM_range_error _ g.numCols hc _ _ ?_
  simp only [updateCell, CheckForNeighbors_bad_mode g _ _ simMode _ _ hm]
  rfl

/-! ## Grid accesses -/

theorem Grid.get_ok_inBounds (h : Grid) (r c v : Int) (hget : h.get r c = Except.ok v) :
    0 ≤ r ∧ r < h.numRows ∧ 0 ≤ c ∧ c < h.numCols := by
  unfold Grid.get at hget
  by_cases hb : h.inBounds r c = true
  · simpa [Grid.inBounds, and_assoc] using hb
  · rw [if_neg hb] at hget
    cases hget

theorem Grid.set_ok_inBounds (h h2 : Grid) (r c v : Int) (hset : h.set r c v = Except.ok h2) :
    0 ≤ r ∧ r < h.numRows ∧ 0 ≤ c ∧ c < h.numCols := by
  unfold Grid.set at hset
  by_cases hb : h.inBounds r c = true
  · simpa [Grid.inBounds, and_assoc] using hb
  · rw [if_neg hb] at hset
    cases hset

/-- For a mode in 0, 1, 2, `IsDirectionOccupied` reads the grid at `readTarget`
and nowhere else. -/
theorem IsDirectionOccupied_reads (g : Grid) (row col simMode dRow dCol nRows nCols : Int)
    (hm : simMode = 0 ∨ simMode = 1 ∨ simMode = 2) :
    (readTarget simMode row col dRow dCol nRows nCols = none →
      IsDirectionOccupied g row col simMode dRow dCol nRows nCols = Except.ok false) ∧
    (∀ p, readTarget simMode row col dRow dCol nRows nCols = some p →
      IsDirectionOccupied g row col simMode dRow dCol nRows nCols =
        (g.get p.1 p.2).bind fun v => Except.ok (decide (v > 0))) := by
  unfold readTarget IsDirectionOccupied
  by_cases hz : dRow = 0 ∧ dCol = 0
  · simp only [if_pos hz, implies_true, true_and]
    intro p hp
    cases hp
  · simp only [if_neg hz]
    rcases hm with hm | hm | hm <;> subst hm
    · simp only [if_true]
      by_cases hb : OnBoard (row + dRow) (col + dCol) nRows nCols = true
      · simp only [if_pos hb]
        refine ⟨(fun h => by cases h), fun p hp => ?_⟩
        cases hp
        rfl
      · simp only [if_neg hb, implies_true, true_and]
        intro p hp
        cases hp
    · simp only [show ((1 : Int) = 0) = False from by simp, if_false, if_true]
      refine ⟨(fun h => by cases h), fun p hp => ?_⟩
      cases hp
      rfl
    · simp only [show ((2 : Int) = 0) = False from by simp,
        show ((2 : Int) = 1) = False from by simp, if_false, if_true]
      refine ⟨(fun h => by cases h), fun p hp => ?_⟩
      cases hp
      rfl

theorem readTarget_inBounds (simMode : Int) (i j : Nat) (dRow dCol : Int) (nRows nCols : Nat)
    (hi : i < nRows) (hj : j < nCols)
    (hdr : dRow = -1 ∨ dRow = 0 ∨ dRow = 1) (hdc : dCol = -1 ∨ dCol = 0 ∨ dCol = 1)
    (p : Int × Int) (hp : readTarget simMode i j dRow dCol nRows nCols = some p) :
    0 ≤ p.1 ∧ p.1 < nRows ∧ 0 ≤ p.2 ∧ p.2 < nCols := by
  unfold readTarget at hp
  by_cases hz : dRow = 0 ∧ dCol = 0
  · rw [if_pos hz] at hp
    cases hp
  · simp only [if_neg hz] at hp
    by_cases h0 : simMode = 0
    · simp only [if_pos h0] at hp
      by_cases hb : OnBoard ((i : Int) + dRow) ((j : Int) + dCol) nRows nCols = true
      · rw [if_pos hb] at hp
        cases hp
        simpa [OnBoard, and_assoc] using hb
      · rw [if_neg hb] at hp
        cases hp
    · simp only [if_neg h0] at hp
      by_cases h1 : simMode = 1
      · simp only [if_pos h1] at hp
        cases hp
        have hr := wrapCoord_range ((i : Int) + dRow) nRows (by omega) (by omega)
        have hc := wrapCoord_range ((j : Int) + dCol) nCols (by omega) (by omega)
        exact ⟨hr.1, hr.2, hc.1, hc.2⟩
      · simp only [if_neg h1] at hp
        by_cases h2 : simMode = 2
        · simp only [if_pos h2] at hp
          cases hp
          have hr := clampCoord_range ((i : Int) + dRow) nRows (by omega) (by omega)
          have hc := clampCoord_range ((j : Int) + dCol) nCols (by omega) (by omega)
          exact ⟨hr.1, hr.2, hc.1, hc.2⟩
        · rw [if_neg h2] at hp
          cases hp

/-! ## Live/dead pattern, fixed points and transposition -/

theorem ageTransition_alive_iff (MaxAge age n : Int) (hM : 1 ≤ MaxAge) (h0 : 0 ≤ age)
    (h1 : age ≤ MaxAge) :
    0 < ageTransition MaxAge age n ↔ (n = 3 ∨ (n = 2 ∧ 0 < age)) := by
  unfold ageTransition
  split_ifs <;> omega

/-- The neighbour count depends only on which cells of the grid are alive. -/
theorem neighborCount_pattern (g h : Grid) (simMode : Int) (i j : Nat)
    (hm : simMode = 0 ∨ simMode = 1 ∨ simMode = 2)
    (hrows : h.numRows = g.numRows) (hcols : h.numCols = g.numCols)
    (hi : i < g.numRows) (hj : j < g.numCols)
    (hpat : ∀ r c, r < g.numRows → c < g.numCols → (0 < h.cell r c ↔ 0 < g.cell r c)) :
    neighborCount h simMode i j = neighborCount g simMode i j := by
  rw [neighborCount_eq_countP g simMode i j (fun d => dirOccupied g simMode i j d.1 d.2)
    (fun _ _ _ _ _ => rfl)]
  refine neighborCount_eq_countP h simMode i j _ ?_
  intro dRow dCol hdr hdc hz
  have key : ∀ x y : Int, 0 ≤ x → x < g.numRows → 0 ≤ y → y < g.numCols →
      decide (h.cell x.toNat y.toNat > 0) = decide (g.cell x.toNat y.toNat > 0) := by
    intro x y hx0 hx1 hy0 hy1
    rw [Bool.eq_iff_iff]
    simp only [decide_eq_true_eq, gt_iff_lt]
    exact hpat x.toNat y.toNat (by omega) (by omega)
  simp only [dirOccupied, if_neg hz, hrows, hcols]
  rcases hm with hm | hm | hm <;> subst hm
  · simp only [if_true]
    by_cases hb : OnBoard ((i : Int) + dRow) ((j : Int) + dCol) g.numRows g.numCols = true
    · have hb2 := hb
      simp only [OnBoard, ge_iff_le, Bool.and_eq_true, decide_eq_true_eq] at hb2
      rw [key _ _ hb2.1.1.1 hb2.1.1.2 hb2.1.2 hb2.2]
    · simp only [Bool.not_eq_true] at hb
      simp only [hb, Bool.false_and]
  · have hr := wrapCoord_range ((i : Int) + dRow) g.numRows (by omega) (by omega)
    have hc := wrapCoord_range ((j : Int) + dCol) g.numCols (by omega) (by omega)
    simp only [show ((1 : Int) = 0) = False from by simp, if_false, if_true]
    exact key _ _ hr.1 hr.2 hc.1 hc.2
  · have hr := clampCoord_range ((i : Int) + dRow) g.numRows (by omega) (by omega)
    have hc := clampCoord_range ((j : Int) + dCol) g.numCols (by omega) (by omega)
    simp only [show ((2 : Int) = 0) = False from by simp,
      show ((2 : Int) = 1) = False from by simp, if_false]
    exact key _ _ hr.1 hr.2 hc.1 hc.2

theorem ageTransition_fixed_not_transition (MaxAge age n : Int)
    (hfix : ageTransition MaxAge age n = age) : ¬(0 < age ∧ age < MaxAge) := by
  unfold ageTransition at hfix
  split_ifs at hfix <;> omega

theorem dirOccupied_transpose (g : Grid) (simMode row col dRow dCol : Int) :
    dirOccupied g.transpose simMode row col dRow dCol =
      dirOccupied g simMode col row dCol dRow := by
  simp only [dirOccupied, Grid.transpose, OnBoard]
  by_cases hz : dRow = 0 ∧ dCol = 0
  · have hz2 : dCol = 0 ∧ dRow = 0 := ⟨hz.2, hz.1⟩
    simp only [hz, hz2, and_self, if_true]
  · have hz2 : ¬(dCol = 0 ∧ dRow = 0) := fun h2 => hz ⟨h2.2, h2.1⟩
    simp only [hz, hz2, if_false]
    by_cases h0 : simMode = 0
    · simp only [h0, if_true]
      cases decide (row + dRow ≥ 0) <;> cases decide (row + dRow < (g.numCols : Int)) <;>
        cases decide (col + dCol ≥ 0) <;> cases decide (col + dCol < (g.numRows : Int)) <;> rfl
    · simp only [h0, if_false]

theorem neighborCount_transpose (g : Grid) (simMode row col : Int) :
    neighborCount g.transpose simMode row col = neighborCount g simMode col row := by
  simp only [neighborCount, offsets, List.map_cons, List.map_nil, List.sum_cons, List.sum_nil,
    dirOccupied_transpose]
  ring

theorem simultaneousGrid_transpose (MaxAge : Int) (g : Grid) (simMode : Int) :
    simultaneousGrid MaxAge g.transpose simMode = (simultaneousGrid MaxAge g simMode).transpose := by
  refine Grid.ext_cells _ _ rfl rfl ?_
  intro r c
  simp only [simultaneousGrid, nextAge, neighborCount_transpose]
  simp only [Grid.transpose]
  by_cases h : c < g.numRows ∧ r < g.numCols
  · rw [if_pos h, if_pos ⟨h.2, h.1⟩]
  · rw [if_neg h, if_neg (fun h2 => h ⟨h2.2, h2.1⟩)]

theorem simultaneousStable_transpose (MaxAge : Int) (g : Grid) (simMode : Int) :
    simultaneousStable MaxAge g.transpose simMode = simultaneousStable MaxAge g simMode := by
  rw [Bool.eq_iff_iff, simultaneousStable_iff, simultaneousStable_iff,
    simultaneousGrid_transpose]
  constructor
  · intro h i j hi hj
    exact h j i hj hi
  · intro h i j hi hj
    exact h j i hj hi

/-! ## The random grid -/

theorem randomCell_step (RandomInteger : Nat → Int → Int → Int) (R C i j : Nat)
    (hrand : ∀ n, (0 ≤ RandomInteger n 0 1 ∧ RandomInteger n 0 1 ≤ 1) ∧
      (1 ≤ RandomInteger n 1 12 ∧ RandomInteger n 1 12 ≤ 12))
    (hi : i < R) (hj : j < C) (st : Grid × Nat) (hinv : RandInv R C i j st) :
    ∃ s2, randomCell RandomInteger i j st = Except.ok s2 ∧ RandInv R C i (j + 1) s2 := by
  obtain ⟨g, k⟩ := st
  obtain ⟨hr, hc, hcell⟩ := hinv
  simp only at hr hc hcell
  have hi2 : i < g.numRows := by omega
  have hj2 : j < g.numCols := by omega
  have hset := fun v => Grid.set_natCast g i j v hi2 hj2
  have hget : ∀ v, (writeCell g i j v).get (i : Int) (j : Int) = Except.ok v := by
    intro v
    rw [Grid.get_natCast (writeCell g i j v) i j hi2 hj2]
    simp [writeCell]
  have hset2 : ∀ v w, (writeCell g i j v).set (i : Int) (j : Int) w =
      Except.ok (writeCell (writeCell g i j v) i j w) :=
    fun v w => Grid.set_natCast (writeCell g i j v) i j w hi2 hj2
  have hold : ∀ r c, (r < i ∧ c < C) ∨ (r = i ∧ c < j + 1) → ¬(r = i ∧ c = j) →
      g.cell r c = 0 ∨ (1 ≤ g.cell r c ∧ g.cell r c ≤ 12) := by
    intro r c h1 h2
    exact hcell r c (by omega)
  simp only [randomCell, hset, hget, Except.bind]
  by_cases hv : RandomInteger k 0 1 > 0
  · simp only [if_pos hv, hset2]
    refine ⟨_, rfl, hr, hc, ?_⟩
    intro r c hrc
    simp only [writeCell]
    by_cases h : r = i ∧ c = j
    · simp only [h, and_self, if_true]
      exact Or.inr (hrand (k + 1)).2
    · simp only [h, if_false]
      exact hold r c hrc h
  · simp only [if_neg hv]
    refine ⟨_, rfl, hr, hc, ?_⟩
    intro r c hrc
    simp only [writeCell]
    by_cases h : r = i ∧ c = j
    · simp only [h, and_self, if_true]
      have := (hrand k).1
      exact Or.inl (by omega)
    · simp only [h, if_false]
      exact hold r c hrc h

theorem randomRow_step (RandomInteger : Nat → Int → Int → Int) (R C i : Nat)
    (hrand : ∀ n, (0 ≤ RandomInteger n 0 1 ∧ RandomInteger n 0 1 ≤ 1) ∧
      (1 ≤ RandomInteger n 1 12 ∧ RandomInteger n 1 12 ≤ 12))
    (hi : i < R) (st : Grid × Nat) (hinv : RandInv R C i 0 st) :
    ∃ s2, (List.range C).foldlM (fun st j => randomCell RandomInteger i j st) st =
        Except.ok s2 ∧ RandInv R C (i + 1) 0 s2 := by
  obtain ⟨s2, hs2, hr, hc, hcell⟩ := foldlM_range_inv
    (fun st j => randomCell RandomInteger i j st) (fun n st => RandInv R C i n st) C
    (fun k hk s hs => randomCell_step RandomInteger R C i k hrand hi hk s hs) st hinv
  refine ⟨s2, hs2, hr, hc, ?_⟩
  intro r c hrc
  exact hcell r c (by omega)

/-! ## The file loader -/

theorem GetOneRow_eq (line : String) (g : Grid) (k : Nat) (hk : k < g.numRows) :
    ∃ g2, GetOneRow line g k = Except.ok g2 ∧ g2.numRows = g.numRows ∧
      g2.numCols = g.numCols ∧
      ∀ r i, g2.cell r i = if r = k ∧ i < g.numCols then rowAge line i else g.cell r i := by
  obtain ⟨g2, hg2, hr, hc, hcell⟩ := foldlM_range_inv
    (fun (h : Grid) (i : Nat) => h.set k i (if charAt line i = 'X' then 1 else 0))
    (fun n h => h.numRows = g.numRows ∧ h.numCols = g.numCols ∧
      ∀ r i, h.cell r i = if r = k ∧ i < n then rowAge line i else g.cell r i)
    g.numCols
    (by
      intro n hn h ⟨hr, hc, hcell⟩
      refine ⟨_, Grid.set_natCast h k n _ (by omega) (by omega), hr, hc, ?_⟩
      intro r i
      simp only [writeCell]
      by_cases hrn : r = k ∧ i = n
      · have : r = k ∧ i < n + 1 := by omega
        rw [if_pos hrn, if_pos this, hrn.2]
        rfl
      · have : (r = k ∧ i < n + 1) ↔ (r = k ∧ i < n) := by omega
        rw [if_neg hrn, hcell r i]
        simp only [this])
    g
    (by
      refine ⟨rfl, rfl, ?_⟩
      intro r i
      have : ¬(r = k ∧ i < 0) := by omega
      rw [if_neg this])
  exact ⟨g2, hg2, hr, hc, hcell⟩

/-- The loader on a run of row-strings, starting at row `k` of a grid that has
room for them. -/
theorem loader_rows (StringToInteger : String → Except String Int) (fresh : Nat → Nat → Int)
    (rows : List String) :
    ∀ (st : LoaderState) (k : Nat), st.currentRow = k →
      k + rows.length ≤ st.theGrid.numRows →
      (∀ s ∈ rows, charAt s 0 = 'X' ∨ charAt s 0 = '-') →
      ∃ st2, rows.foldlM (loaderStep StringToInteger fresh) st = Except.ok st2 ∧
        st2.theGrid.numRows = st.theGrid.numRows ∧ st2.theGrid.numCols = st.theGrid.numCols ∧
        ∀ r i, i < st.theGrid.numCols →
          st2.theGrid.cell r i =
            if k ≤ r ∧ r < k + rows.length then rowAge (rows.getD (r - k) "") i
            else st.theGrid.cell r i := by
  induction rows with
  | nil =>
    intro st k _ _ _
    refine ⟨st, rfl, rfl, rfl, ?_⟩
    intro r i _
    have : ¬(k ≤ r ∧ r < k + ([] : List String).length) := by
      simp only [List.length_nil]; omega
    rw [if_neg this]
  | cons s tail ih =>
    intro st k hk hroom hrows
    simp only [List.length_cons] at hroom
    obtain ⟨g2, hg2, hr, hc, hcell⟩ := GetOneRow_eq s st.theGrid k (by omega)
    have hs := hrows s (List.mem_cons_self s tail)
    have hstep : loaderStep StringToInteger fresh st s =
        Except.ok { theGrid := g2, row := st.row, gotRow := st.gotRow,
                    currentRow := ((k + 1 : Nat) : Int) } := by
      simp only [loaderStep, if_pos hs, hk, hg2, Except.bind]
      push_cast
      rfl
    obtain ⟨st2, hst2, hr2, hc2, hcell2⟩ := ih
      { theGrid := g2, row := st.row, gotRow := st.gotRow, currentRow := ((k + 1 : Nat) : Int) }
      (k + 1) rfl (by simp only [hr]; omega)
      (fun t ht => hrows t (List.mem_cons_of_mem s ht))
    refine ⟨st2, ?_, hr2.trans hr, hc2.trans hc, ?_⟩
    · rw [List.foldlM_cons, hstep]
      exact hst2
    · intro r i hi
      simp only at hcell2
      rw [hcell2 r i (by omega), hcell r i]
      simp only [List.length_cons]
      by_cases h1 : k + 1 ≤ r ∧ r < k + 1 + tail.length
      · have h2 : k ≤ r ∧ r < k + (tail.length + 1) := by omega
        have h3 : r - k = (r - (k + 1)) + 1 := by omega
        rw [if_pos h1, if_pos h2, h3, List.getD_cons_succ]
      · rw [if_neg h1]
        by_cases h4 : r = k
        · have h2 : k ≤ r ∧ r < k + (tail.length + 1) := by omega
          have h3 : r - k = 0 := by omega
          rw [if_pos ⟨h4, hi⟩, if_pos h2, h3]
          rfl
        · have h2 : ¬(k ≤ r ∧ r < k + (tail.length + 1)) := by omega
          have h5 : ¬(r = k ∧ i < st.theGrid.numCols) := fun h => h4 h.1
          rw [if_neg h5, if_neg h2]

theorem loaderStep_comment (StringToInteger : String → Except String Int)
    (fresh : Nat → Nat → Int) (st : LoaderState) (line : String)
    (h : isComment line = true) :
    loaderStep StringToInteger fresh st line = Except.ok st := by
  have hc : charAt line 0 = '#' := by simpa [isComment] using h
  have h1 : ¬(charAt line 0 = 'X' ∨ charAt line 0 = '-') := by
    rw [hc]; decide
  simp only [loaderStep, if_neg h1, if_pos hc]

theorem loader_filter_comments (StringToInteger : String → Except String Int)
    (fresh : Nat → Nat → Int) (lines : List String) :
    ∀ st : LoaderState,
      lines.foldlM (loaderStep StringToInteger fresh) st =
        (lines.filter fun l => !isComment l).foldlM (loaderStep StringToInteger fresh) st := by
  induction lines with
  | nil => intro st; rfl
  | cons l tail ih =>
    intro st
    by_cases hl : isComment l = true
    · have : (List.filter (fun l => !isComment l) (l :: tail)) =
          List.filter (fun l => !isComment l) tail := by
        simp [List.filter_cons, hl]
      rw [this, List.foldlM_cons, loaderStep_comment StringToInteger fresh st l hl]
      exact ih st
    · have : (List.filter (fun l => !isComment l) (l :: tail)) =
          l :: List.filter (fun l => !isComment l) tail := by
        simp [List.filter_cons, hl]
      rw [this, List.foldlM_cons, List.foldlM_cons]
      cases loaderStep StringToInteger fresh st l with
      | error e => rfl
      | ok st1 => exact ih st1

/-- Indices into a line count bytes: in `-éX` the letter `X` is at index 3, and
index 2 holds the second byte of the two-byte character. -/
theorem charAt_counts_bytes :
    lineBytes "-éX" = [45, 195, 169, 88] ∧ charAt "-éX" 3 = 'X' ∧ charAt "-éX" 2 ≠ 'X' ∧
    charAt "-éX" 4 = Char.ofNat 0 := by
  decide

theorem digit_not_marker (c : Char) (h : c.isDigit = true) :
    ¬(c = 'X' ∨ c = '-') ∧ ¬(c = '#') := by
  refine ⟨?_, ?_⟩
  · rintro (rfl | rfl) <;> exact absurd h (by decide)
  · rintro rfl
    exact absurd h (by decide)

/-! ## The menus -/

theorem isMatchFrom_range (choice : Char) (userChoice : List Char) :
    ∀ i : Nat, isMatchFrom choice userChoice i = -1 ∨
      ((i : Int) ≤ isMatchFrom choice userChoice i ∧
        isMatchFrom choice userChoice i < (i : Int) + userChoice.length) := by
  induction userChoice with
  | nil => intro i; exact Or.inl rfl
  | cons c rest ih =>
    intro i
    simp only [isMatchFrom, List.length_cons]
    split_ifs
    · right; push_cast; omega
    · rcases ih (i + 1) with h | h
      · exact Or.inl h
      · right; push_cast at h ⊢; omega

/-- With alphabetic choices the value returned is the index of a choice. -/
theorem askAlpha_range (userChoice : List Char) (lines : List String) (v : Int)
    (h : askAlpha userChoice lines = some v) : 0 ≤ v ∧ v < userChoice.length := by
  induction lines with
  | nil => cases h
  | cons l rest ih =>
    simp only [askAlpha] at h
    split_ifs at h with hm
    · exact ih h
    · injection h with h
      have := isMatchFrom_range (charAt (ConvertToUpperCase l) 0) userChoice 0
      simp only [isMatch] at hm h
      rw [h] at this hm
      rcases this with h1 | h1
      · exact absurd h1 hm
      · push_cast at h1; omega

/-- With numeric choices the value returned is the number typed, between the
number of the first choice and the number of the last. -/
theorem askNumeric_range (comp1 comp2 : Int) (integers : List Int) (v : Int)
    (h : askNumeric comp1 comp2 integers = some v) : comp1 ≤ v ∧ v ≤ comp2 := by
  induction integers with
  | nil => cases h
  | cons n rest ih =>
    simp only [askNumeric] at h
    split_ifs at h with hn
    · exact ih h
    · injection h with h
      omega

theorem AskForChoice_alpha_range (messageOut : String) (c : String) (rest : List String)
    (integers : List Int) (lines : List String) (v : Int)
    (halpha : (charAt c 0).isDigit = false)
    (h : AskForChoice messageOut (c :: rest) integers lines = Except.ok (some v)) :
    0 ≤ v ∧ v < (c :: rest).length := by
  unfold AskForChoice at h
  simp only [List.map_cons, halpha, Bool.false_eq_true, if_false] at h
  injection h with h
  have := askAlpha_range _ _ _ h
  simpa using this

theorem AskForChoice_numeric_range (messageOut : String) (c : String) (rest : List String)
    (integers : List Int) (lines : List String) (v : Int)
    (hdigit : (charAt c 0).isDigit = true)
    (h : AskForChoice messageOut (c :: rest) integers lines = Except.ok (some v)) :
    ((charAt c 0).toNat : Int) - ('0'.toNat : Int) ≤ v ∧
      v ≤ (((charAt c 0 :: rest.map fun x => charAt x 0).getLastD (charAt c 0)).toNat : Int) -
        ('0'.toNat : Int) := by
  unfold AskForChoice at h
  simp only [List.map_cons, hdigit, if_true] at h
  injection h with h
  exact askNumeric_range _ _ _ _ h

/-! ## The Graph comparison functions -/

/-- In graphpriv.cpp two arcs with the same end nodes compare equal, whatever
their addresses. -/
theorem ArcCompare_same_ends (a1 a2 : ArcRef) (hs : a1.start = a2.start)
    (hf : a1.finish = a2.finish) : ArcCompare a1 a2 = 0 := by
  simp [ArcCompare, NodeCompare, hs, hf]

/-- In graphimpl.cpp the comparison of arcs is 0 only for the same address. -/
theorem GraphImpl.ArcCompare_eq_zero_iff (a1 a2 : ArcRef) :
    GraphImpl.ArcCompare a1 a2 = 0 ↔ a1.addr = a2.addr := by
  unfold GraphImpl.ArcCompare
  split_ifs with h1 h2 h3 h4
  · simp [h1]
  · simp [h1, h2]
  · simp [h1, h3]
  · simp [h1]
  · simp [h1]

/-- In graphimpl.cpp the comparison of nodes is 0 only for the same address. -/
theorem GraphImpl.NodeCompare_eq_zero_iff (n1 n2 : NodeRef) :
    GraphImpl.NodeCompare n1 n2 = 0 ↔ n1.addr = n2.addr := by
  unfold GraphImpl.NodeCompare
  split_ifs with h1 <;> simp [h1]

/-! ## The claims -/

/-- C1: for a mode in 0, 1, 2 the in-place pass of `UpdateGrid` returns the grid
and the flag of the simultaneous update computed from the pre-step grid alone;
the neighbour count used for a cell is the value of `CheckForNeighbors` on the
pre-step grid, and the new age of the cell is the age transition of its
pre-step age and that count (which, for a non-negative age, is the rule of
section 4.2 of the specification). -/
theorem UpdateGrid_is_simultaneous (MaxAge : Int) (g : Grid) (simMode : Int)
    (hm : simMode = 0 ∨ simMode = 1 ∨ simMode = 2) :
    UpdateGrid MaxAge g simMode = Except.ok (simultaneousUpdate MaxAge g simMode) ∧
    ∀ i j, i < g.numRows → j < g.numCols →
      CheckForNeighbors g i j simMode g.numRows g.numCols =
        Except.ok (neighborCount g simMode i j) ∧
      (simultaneousUpdate MaxAge g simMode).1.cell i j =
        ageTransition MaxAge (g.cell i j) (neighborCount g simMode i j) ∧
      (0 ≤ g.cell i j →
        (simultaneousUpdate MaxAge g simMode).1.cell i j =
          specAgeRule MaxAge (g.cell i j) (neighborCount g simMode i j)) :=
  ⟨UpdateGrid_eq MaxAge g simMode hm, fun i j hi hj =>
    ⟨CheckForNeighbors_eq g simMode i j hm hi hj,
      simultaneousGrid_cell_count MaxAge g simMode i j hi hj,
      fun h0 => (simultaneousGrid_cell_count MaxAge g simMode i j hi hj).trans
        (ageTransition_eq_spec MaxAge _ _ h0)⟩⟩

/-- Witness for C1: the bar of three cells in DONUT mode. -/
theorem UpdateGrid_is_simultaneous_witness :
    ((1 : Int) = 0 ∨ (1 : Int) = 1 ∨ (1 : Int) = 2) ∧
    (UpdateGrid 12 bar3 1 = Except.ok (simultaneousUpdate 12 bar3 1) ∧
    ∀ i j, i < bar3.numRows → j < bar3.numCols →
      CheckForNeighbors bar3 i j 1 bar3.numRows bar3.numCols =
        Except.ok (neighborCount bar3 1 i j) ∧
      (simultaneousUpdate 12 bar3 1).1.cell i j =
        ageTransition 12 (bar3.cell i j) (neighborCount bar3 1 i j) ∧
      (0 ≤ bar3.cell i j →
        (simultaneousUpdate 12 bar3 1).1.cell i j =
          specAgeRule 12 (bar3.cell i j) (neighborCount bar3 1 i j))) :=
  ⟨Or.inr (Or.inl rfl), UpdateGrid_is_simultaneous 12 bar3 1 (Or.inr (Or.inl rfl))⟩

/-- C2: a cell with exactly 3 occupied neighbours before the step has its age
increased by 1 when it was below `MaxAge` (a dead cell gets age 1 when
`MaxAge >= 1`) and keeps its age when it was `MaxAge`. -/
theorem UpdateGrid_three_neighbors (MaxAge : Int) (g : Grid) (simMode : Int) (i j : Nat)
    (hm : simMode = 0 ∨ simMode = 1 ∨ simMode = 2)
    (hi : i < g.numRows) (hj : j < g.numCols)
    (h3 : CheckForNeighbors g i j simMode g.numRows g.numCols = Except.ok 3) :
    ∃ g2 b, UpdateGrid MaxAge g simMode = Except.ok (g2, b) ∧
      (g.cell i j < MaxAge → g2.cell i j = g.cell i j + 1) ∧
      (g.cell i j = 0 → 1 ≤ MaxAge → g2.cell i j = 1) ∧
      (g.cell i j = MaxAge → g2.cell i j = g.cell i j) := by
  refine ⟨_, _, UpdateGrid_eq MaxAge g simMode hm, ?_⟩
  rw [simultaneousGrid_cell MaxAge g simMode i j 3 hm hi hj h3]
  simp only [ageTransition, show ((3 : Int) = 2) = False from by simp, if_false, if_true]
  refine ⟨?_, ?_, ?_⟩
  · intro h; rw [if_pos h]
  · intro h0 h1; rw [if_pos (by omega), h0]; rfl
  · intro h; rw [if_neg (by omega)]

/-- Witness for C2: the dead centre of `cornerTrio`, PLATEAU mode. -/
theorem UpdateGrid_three_neighbors_witness :
    ((0 : Int) = 0 ∨ (0 : Int) = 1 ∨ (0 : Int) = 2) ∧ 1 < cornerTrio.numRows ∧
    1 < cornerTrio.numCols ∧
    CheckForNeighbors cornerTrio (1 : Nat) (1 : Nat) 0 cornerTrio.numRows cornerTrio.numCols =
      Except.ok 3 ∧
    ∃ g2 b, UpdateGrid 12 cornerTrio 0 = Except.ok (g2, b) ∧
      (cornerTrio.cell 1 1 < 12 → g2.cell 1 1 = cornerTrio.cell 1 1 + 1) ∧
      (cornerTrio.cell 1 1 = 0 → (1 : Int) ≤ 12 → g2.cell 1 1 = 1) ∧
      (cornerTrio.cell 1 1 = 12 → g2.cell 1 1 = cornerTrio.cell 1 1) :=
  ⟨Or.inl rfl, by decide, by decide, rfl,
    UpdateGrid_three_neighbors 12 cornerTrio 0 1 1 (Or.inl rfl) (by decide) (by decide) rfl⟩

/-- C3: a cell with exactly 2 occupied neighbours before the step stays dead
when it was dead, has its age increased by 1 when it was alive and below
`MaxAge`, and stays at `MaxAge` when it was there; it is alive after the step
exactly when it was alive before. -/
theorem UpdateGrid_two_neighbors (MaxAge : Int) (g : Grid) (simMode : Int) (i j : Nat)
    (hm : simMode = 0 ∨ simMode = 1 ∨ simMode = 2)
    (hi : i < g.numRows) (hj : j < g.numCols)
    (h2 : CheckForNeighbors g i j simMode g.numRows g.numCols = Except.ok 2) :
    ∃ g2 b, UpdateGrid MaxAge g simMode = Except.ok (g2, b) ∧
      (g.cell i j = 0 → g2.cell i j = 0) ∧
      (0 < g.cell i j → g.cell i j < MaxAge → g2.cell i j = g.cell i j + 1) ∧
      (g.cell i j = MaxAge → g2.cell i j = MaxAge) ∧
      (0 < g2.cell i j ↔ 0 < g.cell i j) := by
  refine ⟨_, _, UpdateGrid_eq MaxAge g simMode hm, ?_⟩
  rw [simultaneousGrid_cell MaxAge g simMode i j 2 hm hi hj h2]
  simp only [ageTransition, if_true]
  refine ⟨?_, ?_, ?_, ?_⟩
  · intro h; rw [h]; split_ifs <;> simp_all
  · intro h0 h1; rw [if_pos h1, if_pos (by omega)]
  · intro h; rw [if_neg (by omega), h]
  · split_ifs <;> omega

/-- Witness for C3: the centre of the bar, MIRROR mode. -/
theorem UpdateGrid_two_neighbors_witness :
    ((2 : Int) = 0 ∨ (2 : Int) = 1 ∨ (2 : Int) = 2) ∧ 1 < bar3.numRows ∧ 1 < bar3.numCols ∧
    CheckForNeighbors bar3 (1 : Nat) (1 : Nat) 2 bar3.numRows bar3.numCols = Except.ok 2 ∧
    ∃ g2 b, UpdateGrid 12 bar3 2 = Except.ok (g2, b) ∧
      (bar3.cell 1 1 = 0 → g2.cell 1 1 = 0) ∧
      (0 < bar3.cell 1 1 → bar3.cell 1 1 < 12 → g2.cell 1 1 = bar3.cell 1 1 + 1) ∧
      (bar3.cell 1 1 = 12 → g2.cell 1 1 = 12) ∧
      (0 < g2.cell 1 1 ↔ 0 < bar3.cell 1 1) :=
  ⟨Or.inr (Or.inr rfl), by decide, by decide, rfl,
    UpdateGrid_two_neighbors 12 bar3 2 1 1 (Or.inr (Or.inr rfl)) (by decide) (by decide) rfl⟩

/-- C4: a cell whose count of occupied neighbours before the step is neither 2
nor 3 has age 0 after the step, whatever its age was. -/
theorem UpdateGrid_other_neighbors (MaxAge : Int) (g : Grid) (simMode : Int) (i j : Nat)
    (n : Int) (hm : simMode = 0 ∨ simMode = 1 ∨ simMode = 2)
    (hi : i < g.numRows) (hj : j < g.numCols)
    (hn : CheckForNeighbors g i j simMode g.numRows g.numCols = Except.ok n)
    (hn2 : n ≠ 2) (hn3 : n ≠ 3) :
    ∃ g2 b, UpdateGrid MaxAge g simMode = Except.ok (g2, b) ∧ g2.cell i j = 0 := by
  refine ⟨_, _, UpdateGrid_eq MaxAge g simMode hm, ?_⟩
  rw [simultaneousGrid_cell MaxAge g simMode i j n hm hi hj hn]
  simp only [ageTransition, hn2, hn3, if_false]

/-- Witness for C4: the left end of the bar, PLATEAU mode, count 1. -/
theorem UpdateGrid_other_neighbors_witness :
    ((0 : Int) = 0 ∨ (0 : Int) = 1 ∨ (0 : Int) = 2) ∧ 1 < bar3.numRows ∧ 0 < bar3.numCols ∧
    CheckForNeighbors bar3 (1 : Nat) (0 : Nat) 0 bar3.numRows bar3.numCols = Except.ok 1 ∧
    (1 : Int) ≠ 2 ∧ (1 : Int) ≠ 3 ∧
    ∃ g2 b, UpdateGrid 12 bar3 0 = Except.ok (g2, b) ∧ g2.cell 1 0 = 0 :=
  ⟨Or.inl rfl, by decide, by decide, rfl, by decide, by decide,
    UpdateGrid_other_neighbors 12 bar3 0 1 0 1 (Or.inl rfl) (by decide) (by decide)
      rfl (by decide) (by decide)⟩

/-- C5: when every cell of the grid is in `[0, MaxAge]` before the step, every
cell is in `[0, MaxAge]` after it. -/
theorem UpdateGrid_preserves_range (MaxAge : Int) (g : Grid) (simMode : Int)
    (hm : simMode = 0 ∨ simMode = 1 ∨ simMode = 2)
    (hrange : ∀ i j, i < g.numRows → j < g.numCols → 0 ≤ g.cell i j ∧ g.cell i j ≤ MaxAge) :
    ∃ g2 b, UpdateGrid MaxAge g simMode = Except.ok (g2, b) ∧
      g2.numRows = g.numRows ∧ g2.numCols = g.numCols ∧
      ∀ i j, i < g2.numRows → j < g2.numCols → 0 ≤ g2.cell i j ∧ g2.cell i j ≤ MaxAge := by
  refine ⟨_, _, UpdateGrid_eq MaxAge g simMode hm, rfl, rfl, ?_⟩
  intro i j hi hj
  have hi2 : i < g.numRows := hi
  have hj2 : j < g.numCols := hj
  have h := hrange i j hi2 hj2
  rw [simultaneousGrid_cell_count MaxAge g simMode i j hi2 hj2]
  unfold ageTransition
  split_ifs <;> omega

/-- Witness for C5: the bar of three cells, MIRROR mode. -/
theorem UpdateGrid_preserves_range_witness :
    ((2 : Int) = 0 ∨ (2 : Int) = 1 ∨ (2 : Int) = 2) ∧
    (∀ i j, i < bar3.numRows → j < bar3.numCols → 0 ≤ bar3.cell i j ∧ bar3.cell i j ≤ 12) ∧
    ∃ g2 b, UpdateGrid 12 bar3 2 = Except.ok (g2, b) ∧
      g2.numRows = bar3.numRows ∧ g2.numCols = bar3.numCols ∧
      ∀ i j, i < g2.numRows → j < g2.numCols → 0 ≤ g2.cell i j ∧ g2.cell i j ≤ 12 :=
  have hb : ∀ i j, i < bar3.numRows → j < bar3.numCols →
      0 ≤ bar3.cell i j ∧ bar3.cell i j ≤ 12 := by
    intro i j hi hj
    have hi3 : i < 3 := hi
    have hj3 : j < 3 := hj
    interval_cases i <;> interval_cases j <;> decide
  ⟨Or.inr (Or.inr rfl), hb, UpdateGrid_preserves_range 12 bar3 2 (Or.inr (Or.inr rfl)) hb⟩

/-- C6: `UpdateGrid` returns `true` exactly when no cell of the grid it leaves
has an age strictly between 0 and `MaxAge`. -/
theorem UpdateGrid_flag_iff (MaxAge : Int) (g : Grid) (simMode : Int)
    (hm : simMode = 0 ∨ simMode = 1 ∨ simMode = 2) :
    ∃ g2 b, UpdateGrid MaxAge g simMode = Except.ok (g2, b) ∧
      (b = true ↔ ∀ i j, i < g2.numRows → j < g2.numCols →
        ¬(0 < g2.cell i j ∧ g2.cell i j < MaxAge)) :=
  ⟨_, _, UpdateGrid_eq MaxAge g simMode hm, simultaneousStable_iff MaxAge g simMode⟩

/-- Witness for C6: the bar of three cells, PLATEAU mode. -/
theorem UpdateGrid_flag_iff_witness :
    ((0 : Int) = 0 ∨ (0 : Int) = 1 ∨ (0 : Int) = 2) ∧
    ∃ g2 b, UpdateGrid 12 bar3 0 = Except.ok (g2, b) ∧
      (b = true ↔ ∀ i j, i < g2.numRows → j < g2.numCols →
        ¬(0 < g2.cell i j ∧ g2.cell i j < 12)) :=
  ⟨Or.inl rfl, UpdateGrid_flag_iff 12 bar3 0 (Or.inl rfl)⟩

/-- C7, counterexample: in `lonelyElder` every cell is 0 or 12, yet with
`MaxAge = 12` the step kills the centre cell, so the grid is changed; in
`elderBar` every cell is 0 or 12, yet the step returns `false` and gives birth
to cell (0, 1). -/
theorem saturated_grid_not_fixed :
    (∀ i < 3, ∀ j < 3, lonelyElder.cell i j = 0 ∨ lonelyElder.cell i j = 12) ∧
    (∃ g2, UpdateGrid 12 lonelyElder 0 = Except.ok (g2, true) ∧
      lonelyElder.cell 1 1 = 12 ∧ g2.cell 1 1 = 0 ∧ g2 ≠ lonelyElder) ∧
    (∀ i < 3, ∀ j < 3, elderBar.cell i j = 0 ∨ elderBar.cell i j = 12) ∧
    (∃ g2, UpdateGrid 12 elderBar 0 = Except.ok (g2, false) ∧
      elderBar.cell 0 1 = 0 ∧ g2.cell 0 1 = 1) := by
  refine ⟨by decide, ⟨simultaneousGrid 12 lonelyElder 0, ?_, by decide, by decide, ?_⟩,
    by decide, ⟨simultaneousGrid 12 elderBar 0, ?_, by decide, by decide⟩⟩
  · rw [UpdateGrid_eq 12 lonelyElder 0 (Or.inl rfl)]
    have : simultaneousStable 12 lonelyElder 0 = true := by decide
    simp only [simultaneousUpdate, this]
  · intro h
    exact absurd (congrArg (fun g => Grid.cell g 1 1) h) (by decide)
  · rw [UpdateGrid_eq 12 elderBar 0 (Or.inl rfl)]
    have : simultaneousStable 12 elderBar 0 = false := by decide
    simp only [simultaneousUpdate, this]

/-- C7, amended: a grid in which every cell is 0 or `MaxAge` and which satisfies
the still-life condition (every non-zero cell has 2 or 3 occupied neighbours,
no zero cell has exactly 3) is left unchanged by `UpdateGrid`, which returns
`true`; the same holds after any number of further steps. -/
theorem saturated_still_life_unchanged (MaxAge : Int) (g : Grid) (simMode : Int)
    (hm : simMode = 0 ∨ simMode = 1 ∨ simMode = 2)
    (hcells : ∀ i j, i < g.numRows → j < g.numCols → g.cell i j = 0 ∨ g.cell i j = MaxAge)
    (hstill : StillLife g simMode) :
    UpdateGrid MaxAge g simMode = Except.ok (g, true) ∧
    ∀ n, UpdateGridTimes MaxAge simMode n g = Except.ok g :=
  ⟨still_life_fixed MaxAge g simMode hm hcells hstill,
    still_life_fixed_times MaxAge g simMode (still_life_fixed MaxAge g simMode hm hcells hstill)⟩

/-- Witness for C7 (amended): the block of age 12 with `MaxAge = 12`. -/
theorem saturated_still_life_unchanged_witness :
    ((0 : Int) = 0 ∨ (0 : Int) = 1 ∨ (0 : Int) = 2) ∧
    (∀ i j, i < elderBlock.numRows → j < elderBlock.numCols →
      elderBlock.cell i j = 0 ∨ elderBlock.cell i j = 12) ∧
    StillLife elderBlock 0 ∧
    (UpdateGrid 12 elderBlock 0 = Except.ok (elderBlock, true) ∧
    ∀ n, UpdateGridTimes 12 0 n elderBlock = Except.ok elderBlock) :=
  ⟨Or.inl rfl, elderBlock_cells, elderBlock_still,
    saturated_still_life_unchanged 12 elderBlock 0 (Or.inl rfl) elderBlock_cells
      elderBlock_still⟩

/-- C8, counterexample: with `MaxAge = 12` and PLATEAU mode, `UpdateGrid` returns
`true` on `elderDiagonal` (ages in `[0, 12]`) and leaves the centre alive at
age 12, but the next `UpdateGrid` on the resulting grid kills the centre, so
the grid reported as stabilized is not a fixed point. -/
theorem reported_stable_not_fixed :
    (∀ i < 3, ∀ j < 3, 0 ≤ elderDiagonal.cell i j ∧ elderDiagonal.cell i j ≤ 12) ∧
    ∃ g1 g2 b, UpdateGrid 12 elderDiagonal 0 = Except.ok (g1, true) ∧
      UpdateGrid 12 g1 0 = Except.ok (g2, b) ∧ g1.cell 1 1 = 12 ∧ g2.cell 1 1 = 0 ∧
      g2 ≠ g1 := by
  refine ⟨by decide, simultaneousGrid 12 elderDiagonal 0,
    simultaneousGrid 12 (simultaneousGrid 12 elderDiagonal 0) 0,
    simultaneousStable 12 (simultaneousGrid 12 elderDiagonal 0) 0, ?_, ?_, by decide,
    by decide, ?_⟩
  · rw [UpdateGrid_eq 12 elderDiagonal 0 (Or.inl rfl)]
    have : simultaneousStable 12 elderDiagonal 0 = true := by decide
    simp only [simultaneousUpdate, this]
  · rw [UpdateGrid_eq 12 _ 0 (Or.inl rfl)]
    rfl
  · intro h
    exact absurd (congrArg (fun g => Grid.cell g 1 1) h) (by decide)

/-- C8, amended: when `UpdateGrid` returns `true` on a grid with ages in
`[0, MaxAge]`, every cell of the resulting grid is 0 or `MaxAge`; a second
`UpdateGrid` in the same mode leaves that grid unchanged (and returns `true`)
if the resulting grid satisfies the still-life condition, and, when
`MaxAge >= 1`, only if it does. -/
theorem reported_stable_fixed_iff_still (MaxAge : Int) (g g1 : Grid) (simMode : Int)
    (hm : simMode = 0 ∨ simMode = 1 ∨ simMode = 2)
    (hrange : ∀ i j, i < g.numRows → j < g.numCols → 0 ≤ g.cell i j ∧ g.cell i j ≤ MaxAge)
    (hret : UpdateGrid MaxAge g simMode = Except.ok (g1, true)) :
    (∀ i j, i < g1.numRows → j < g1.numCols → g1.cell i j = 0 ∨ g1.cell i j = MaxAge) ∧
    (StillLife g1 simMode → UpdateGrid MaxAge g1 simMode = Except.ok (g1, true)) ∧
    (1 ≤ MaxAge → ∀ b, UpdateGrid MaxAge g1 simMode = Except.ok (g1, b) →
      StillLife g1 simMode) :=
  ⟨stable_cells_saturated MaxAge g g1 simMode hm hrange hret,
    fun hstill => still_life_fixed MaxAge g1 simMode hm
      (stable_cells_saturated MaxAge g g1 simMode hm hrange hret) hstill,
    fun hM b hfix => fixed_is_still_life MaxAge g1 simMode b hm hM
      (stable_cells_saturated MaxAge g g1 simMode hm hrange hret) hfix⟩

/-- Witness for C8 (amended): the block of age 12 with `MaxAge = 12`. -/
theorem reported_stable_fixed_iff_still_witness :
    ((0 : Int) = 0 ∨ (0 : Int) = 1 ∨ (0 : Int) = 2) ∧
    (∀ i j, i < elderBlock.numRows → j < elderBlock.numCols →
      0 ≤ elderBlock.cell i j ∧ elderBlock.cell i j ≤ 12) ∧
    UpdateGrid 12 elderBlock 0 = Except.ok (elderBlock, true) ∧
    ((∀ i j, i < elderBlock.numRows → j < elderBlock.numCols →
      elderBlock.cell i j = 0 ∨ elderBlock.cell i j = 12) ∧
    (StillLife elderBlock 0 → UpdateGrid 12 elderBlock 0 = Except.ok (elderBlock, true)) ∧
    ((1 : Int) ≤ 12 → ∀ b, UpdateGrid 12 elderBlock 0 = Except.ok (elderBlock, b) →
      StillLife elderBlock 0)) :=
  have hr : ∀ i j, i < elderBlock.numRows → j < elderBlock.numCols →
      0 ≤ elderBlock.cell i j ∧ elderBlock.cell i j ≤ 12 := fun i j hi hj => by
    rcases elderBlock_cells i j hi hj with h | h <;> rw [h] <;> decide
  have hu : UpdateGrid 12 elderBlock 0 = Except.ok (elderBlock, true) :=
    still_life_fixed 12 elderBlock 0 (Or.inl rfl) elderBlock_cells elderBlock_still
  ⟨Or.inl rfl, hr, hu,
    reported_stable_fixed_iff_still 12 elderBlock elderBlock 0 (Or.inl rfl) hr hu⟩

/-- C9, counterexample: in MIRROR mode the lone live cell of `cornerCell` (a
3 x 3 grid, the cell at corner (0, 0) with age 1) has neighbour count 3; with
`MaxAge = 12` the step returns `false` and the cell has age 2. -/
theorem mirror_corner_cell_survives :
    3 ≤ cornerCell.numRows ∧ 3 ≤ cornerCell.numCols ∧
    (∀ i < 3, ∀ j < 3, cornerCell.cell i j = if i = 0 ∧ j = 0 then 1 else 0) ∧
    CheckForNeighbors cornerCell (0 : Nat) (0 : Nat) 2 cornerCell.numRows cornerCell.numCols =
      Except.ok 3 ∧
    ∃ g2, UpdateGrid 12 cornerCell 2 = Except.ok (g2, false) ∧ g2.cell 0 0 = 2 := by
  refine ⟨by decide, by decide, by decide, rfl, simultaneousGrid 12 cornerCell 2, ?_, by decide⟩
  rw [UpdateGrid_eq 12 cornerCell 2 (Or.inr (Or.inr rfl))]
  have : simultaneousStable 12 cornerCell 2 = false := by decide
  simp only [simultaneousUpdate, this]

/-- C9, amended: on a grid of at least 3 rows and 3 columns whose only live cell
is `(r0, c0)`, at age 1, one `UpdateGrid` in mode 0, 1 or 2 leaves the whole
grid dead and returns `true`, unless the mode is MIRROR and the cell is one of
the four corners; in that case the cell counts itself three times, so its
neighbour count is 3 and it is still alive after the step. -/
theorem isolated_cell_dies (MaxAge : Int) (g : Grid) (simMode : Int) (r0 c0 : Nat)
    (hm : simMode = 0 ∨ simMode = 1 ∨ simMode = 2)
    (hrows : 3 ≤ g.numRows) (hcols : 3 ≤ g.numCols)
    (hr0 : r0 < g.numRows) (hc0 : c0 < g.numCols)
    (hcells : ∀ i j, i < g.numRows → j < g.numCols →
      g.cell i j = if i = r0 ∧ j = c0 then 1 else 0) :
    (¬(simMode = 2 ∧ (r0 = 0 ∨ r0 + 1 = g.numRows) ∧ (c0 = 0 ∨ c0 + 1 = g.numCols)) →
      ∃ g2, UpdateGrid MaxAge g simMode = Except.ok (g2, true) ∧
        g2.numRows = g.numRows ∧ g2.numCols = g.numCols ∧
        ∀ i j, i < g.numRows → j < g.numCols → g2.cell i j = 0) ∧
    (simMode = 2 ∧ (r0 = 0 ∨ r0 + 1 = g.numRows) ∧ (c0 = 0 ∨ c0 + 1 = g.numCols) →
      CheckForNeighbors g r0 c0 simMode g.numRows g.numCols = Except.ok 3 ∧
      ∃ g2 b, UpdateGrid MaxAge g simMode = Except.ok (g2, b) ∧ 0 < g2.cell r0 c0) := by
  constructor
  · intro hcorner
    have hz := single_cell_next_dead MaxAge g simMode r0 c0 hm hrows hcols hr0 hc0 hcells hcorner
    refine ⟨simultaneousGrid MaxAge g simMode, ?_, rfl, rfl, hz⟩
    rw [UpdateGrid_eq MaxAge g simMode hm]
    have : simultaneousStable MaxAge g simMode = true := by
      rw [simultaneousStable_iff]
      intro i j hi hj
      rw [hz i j hi hj]
      omega
    simp only [simultaneousUpdate, this]
  · rintro ⟨h2, hr, hc⟩
    subst h2
    have hcount := mirror_corner_count g r0 c0 hrows hcols hr0 hc0 hcells hr hc
    refine ⟨?_, _, _, UpdateGrid_eq MaxAge g 2 hm, ?_⟩
    · rw [CheckForNeighbors_eq g 2 r0 c0 hm hr0 hc0, hcount]
    · rw [simultaneousGrid_cell_count MaxAge g 2 r0 c0 hr0 hc0, hcount, hcells r0 c0 hr0 hc0,
        if_pos ⟨rfl, rfl⟩]
      unfold ageTransition
      split_ifs <;> omega

/-- Witness for C9 (amended): MIRROR mode, the live cell on an edge but not in a corner. -/
theorem isolated_cell_dies_witness :
    ((2 : Int) = 0 ∨ (2 : Int) = 1 ∨ (2 : Int) = 2) ∧
    3 ≤ edgeCell.numRows ∧ 3 ≤ edgeCell.numCols ∧ 0 < edgeCell.numRows ∧ 1 < edgeCell.numCols ∧
    (∀ i j, i < edgeCell.numRows → j < edgeCell.numCols →
      edgeCell.cell i j = if i = 0 ∧ j = 1 then 1 else 0) ∧
    ¬((2 : Int) = 2 ∧ (0 = 0 ∨ 0 + 1 = edgeCell.numRows) ∧ (1 = 0 ∨ 1 + 1 = edgeCell.numCols)) ∧
    ∃ g2, UpdateGrid 12 edgeCell 2 = Except.ok (g2, true) ∧
      g2.numRows = edgeCell.numRows ∧ g2.numCols = edgeCell.numCols ∧
      ∀ i j, i < edgeCell.numRows → j < edgeCell.numCols → g2.cell i j = 0 :=
  have hc : ∀ i j, i < edgeCell.numRows → j < edgeCell.numCols →
      edgeCell.cell i j = if i = 0 ∧ j = 1 then 1 else 0 := by
    intro i j hi hj
    have hi3 : i < 3 := hi
    have hj3 : j < 3 := hj
    interval_cases i <;> interval_cases j <;> decide
  ⟨Or.inr (Or.inr rfl), by decide, by decide, by decide, by decide, hc, by decide,
    (isolated_cell_dies 12 edgeCell 2 0 1 (Or.inr (Or.inr rfl)) (by decide) (by decide)
      (by decide) (by decide) hc).1 (by decide)⟩

/-- C10: on a PLATEAU grid whose only live cells form a 2 x 2 block with top
left cell `(r, c)`, all of age `a` with `1 <= a <= MaxAge` (in particular a
block that does not touch the border of a grid of at least 4 x 4), every block
cell has exactly 3 occupied neighbours; one `UpdateGrid` leaves the other cells
dead, sets each block cell to `min (a + 1) MaxAge`, and returns `true` exactly
when that value is `MaxAge`; a block at `MaxAge` is left unchanged with `true`
returned. -/
theorem block_still_life (MaxAge : Int) (g : Grid) (r c : Nat) (a : Int)
    (hr : r + 1 < g.numRows) (hc : c + 1 < g.numCols) (ha1 : 1 ≤ a) (ha2 : a ≤ MaxAge)
    (hcells : ∀ i j, i < g.numRows → j < g.numCols →
      g.cell i j = if (i = r ∨ i = r + 1) ∧ (j = c ∨ j = c + 1) then a else 0) :
    (∀ i j : Nat, (i = r ∨ i = r + 1) → (j = c ∨ j = c + 1) →
      CheckForNeighbors g i j 0 g.numRows g.numCols = Except.ok 3) ∧
    ∃ g2 b, UpdateGrid MaxAge g 0 = Except.ok (g2, b) ∧
      g2.numRows = g.numRows ∧ g2.numCols = g.numCols ∧
      (∀ i j, i < g.numRows → j < g.numCols →
        g2.cell i j = if (i = r ∨ i = r + 1) ∧ (j = c ∨ j = c + 1) then min (a + 1) MaxAge
          else 0) ∧
      (b = true ↔ min (a + 1) MaxAge = MaxAge) ∧
      (a = MaxAge → g2 = g ∧ b = true) := by
  have hm : (0 : Int) = 0 ∨ (0 : Int) = 1 ∨ (0 : Int) = 2 := Or.inl rfl
  have hnext := block_next MaxAge g r c a hr hc ha1 hcells
  have hcell : ∀ i j, i < g.numRows → j < g.numCols →
      (simultaneousGrid MaxAge g 0).cell i j =
        if (i = r ∨ i = r + 1) ∧ (j = c ∨ j = c + 1) then min (a + 1) MaxAge else 0 := by
    intro i j hi hj
    rw [(hnext i j hi hj).2, ageTransition_three MaxAge a ha2]
  have hflag : simultaneousStable MaxAge g 0 = true ↔ min (a + 1) MaxAge = MaxAge := by
    rw [simultaneousStable_iff]
    constructor
    · intro h
      have h1 := h r c (by omega) (by omega)
      rw [hcell r c (by omega) (by omega), if_pos ⟨Or.inl rfl, Or.inl rfl⟩] at h1
      omega
    · intro h i j hi hj
      rw [hcell i j hi hj]
      split_ifs <;> omega
  constructor
  · intro i j hi hj
    have hi2 : i < g.numRows := by omega
    have hj2 : j < g.numCols := by omega
    rw [CheckForNeighbors_eq g 0 i j hm hi2 hj2, (hnext i j hi2 hj2).1 ⟨hi, hj⟩]
  · refine ⟨simultaneousGrid MaxAge g 0, simultaneousStable MaxAge g 0,
      UpdateGrid_eq MaxAge g 0 hm, rfl, rfl, hcell, hflag, ?_⟩
    intro hmax
    constructor
    · refine Grid.ext_cells _ _ rfl rfl ?_
      intro i j
      by_cases hij : i < g.numRows ∧ j < g.numCols
      · rw [hcell i j hij.1 hij.2, hcells i j hij.1 hij.2]
        split_ifs <;> omega
      · simp only [simultaneousGrid, hij, if_false]
    · rw [hflag]
      omega

/-- Witness for C10: the block of age 1 in a 4 x 4 grid, `MaxAge = 12`. -/
theorem block_still_life_witness :
    1 + 1 < youngBlock.numRows ∧ 1 + 1 < youngBlock.numCols ∧ (1 : Int) ≤ 1 ∧ (1 : Int) ≤ 12 ∧
    (∀ i j, i < youngBlock.numRows → j < youngBlock.numCols →
      youngBlock.cell i j = if (i = 1 ∨ i = 1 + 1) ∧ (j = 1 ∨ j = 1 + 1) then 1 else 0) ∧
    ((∀ i j : Nat, (i = 1 ∨ i = 1 + 1) → (j = 1 ∨ j = 1 + 1) →
      CheckForNeighbors youngBlock i j 0 youngBlock.numRows youngBlock.numCols = Except.ok 3) ∧
    ∃ g2 b, UpdateGrid 12 youngBlock 0 = Except.ok (g2, b) ∧
      g2.numRows = youngBlock.numRows ∧ g2.numCols = youngBlock.numCols ∧
      (∀ i j, i < youngBlock.numRows → j < youngBlock.numCols →
        g2.cell i j = if (i = 1 ∨ i = 1 + 1) ∧ (j = 1 ∨ j = 1 + 1) then min ((1 : Int) + 1) 12
          else 0) ∧
      (b = true ↔ min ((1 : Int) + 1) 12 = 12) ∧
      ((1 : Int) = 12 → g2 = youngBlock ∧ b = true)) :=
  have hc : ∀ i j, i < youngBlock.numRows → j < youngBlock.numCols →
      youngBlock.cell i j = if (i = 1 ∨ i = 1 + 1) ∧ (j = 1 ∨ j = 1 + 1) then 1 else 0 := by
    intro i j hi hj
    have hi4 : i < 4 := hi
    have hj4 : j < 4 := hj
    interval_cases i <;> interval_cases j <;> decide
  ⟨by decide, by decide, by decide, by decide, hc,
    block_still_life 12 youngBlock 1 1 1 (by decide) (by decide) (by decide) (by decide) hc⟩

/-- C11: for a cell of the grid, `CheckForNeighbors` in mode 0 (PLATEAU) returns
the number of the eight Moore offsets whose position lies inside the grid and
holds a value above 0; a direction that leaves the grid is reported as not
occupied. -/
theorem CheckForNeighbors_plateau (g : Grid) (i j : Nat)
    (hi : i < g.numRows) (hj : j < g.numCols) :
    CheckForNeighbors g i j 0 g.numRows g.numCols = Except.ok (plateauCount g i j : Int) ∧
    ∀ dRow dCol : Int,
      ¬(0 ≤ (i : Int) + dRow ∧ (i : Int) + dRow < g.numRows ∧
        0 ≤ (j : Int) + dCol ∧ (j : Int) + dCol < g.numCols) →
      IsDirectionOccupied g i j 0 dRow dCol g.numRows g.numCols = Except.ok false := by
  constructor
  · rw [CheckForNeighbors_eq g 0 i j (Or.inl rfl) hi hj, neighborCount_plateau]
  · intro dRow dCol hout
    unfold IsDirectionOccupied
    by_cases hz : dRow = 0 ∧ dCol = 0
    · rw [if_pos hz]
    · have hb : ¬(OnBoard ((i : Int) + dRow) ((j : Int) + dCol) g.numRows g.numCols = true) := by
        simp only [OnBoard, ge_iff_le, Bool.and_eq_true, decide_eq_true_eq, and_assoc]
        exact hout
      simp only [if_neg hz, if_true, if_neg hb]

/-- Witness for C11: the corner (0, 0) of `cornerTrio`. -/
theorem CheckForNeighbors_plateau_witness :
    0 < cornerTrio.numRows ∧ 0 < cornerTrio.numCols ∧
    (CheckForNeighbors cornerTrio (0 : Nat) (0 : Nat) 0 cornerTrio.numRows cornerTrio.numCols =
      Except.ok (plateauCount cornerTrio (0 : Nat) (0 : Nat) : Int) ∧
    ∀ dRow dCol : Int,
      ¬(0 ≤ ((0 : Nat) : Int) + dRow ∧ ((0 : Nat) : Int) + dRow < cornerTrio.numRows ∧
        0 ≤ ((0 : Nat) : Int) + dCol ∧ ((0 : Nat) : Int) + dCol < cornerTrio.numCols) →
      IsDirectionOccupied cornerTrio (0 : Nat) (0 : Nat) 0 dRow dCol cornerTrio.numRows
        cornerTrio.numCols = Except.ok false) :=
  ⟨by decide, by decide, CheckForNeighbors_plateau cornerTrio 0 0 (by decide) (by decide)⟩

/-- C12: for a cell of the grid, `CheckForNeighbors` in mode 1 (DONUT) returns
the number of the eight Moore offsets for which the cell at the position taken
modulo the numbers of rows and columns holds a value above 0. -/
theorem CheckForNeighbors_donut (g : Grid) (i j : Nat)
    (hi : i < g.numRows) (hj : j < g.numCols) :
    CheckForNeighbors g i j 1 g.numRows g.numCols = Except.ok (donutCount g i j : Int) := by
  rw [CheckForNeighbors_eq g 1 i j (Or.inr (Or.inl rfl)) hi hj, neighborCount_donut g i j hi hj]

/-- Witness for C12: the corner (0, 0) of `cornerTrio`. -/
theorem CheckForNeighbors_donut_witness :
    0 < cornerTrio.numRows ∧ 0 < cornerTrio.numCols ∧
    CheckForNeighbors cornerTrio (0 : Nat) (0 : Nat) 1 cornerTrio.numRows cornerTrio.numCols =
      Except.ok (donutCount cornerTrio (0 : Nat) (0 : Nat) : Int) :=
  ⟨by decide, by decide, CheckForNeighbors_donut cornerTrio 0 0 (by decide) (by decide)⟩

/-- C13: for a cell of the grid, `CheckForNeighbors` in mode 2 (MIRROR) returns
the number of the eight Moore offsets for which the cell at the position
clamped to the grid holds a value above 0; a live cell on the border is
reported as occupied in the direction that leaves the grid. -/
theorem CheckForNeighbors_mirror (g : Grid) (i j : Nat)
    (hi : i < g.numRows) (hj : j < g.numCols) :
    CheckForNeighbors g i j 2 g.numRows g.numCols = Except.ok (mirrorCount g i j : Int) ∧
    (0 < g.cell i j →
      (i = 0 → IsDirectionOccupied g i j 2 (-1) 0 g.numRows g.numCols = Except.ok true) ∧
      (i + 1 = g.numRows →
        IsDirectionOccupied g i j 2 1 0 g.numRows g.numCols = Except.ok true) ∧
      (j = 0 → IsDirectionOccupied g i j 2 0 (-1) g.numRows g.numCols = Except.ok true) ∧
      (j + 1 = g.numCols →
        IsDirectionOccupied g i j 2 0 1 g.numRows g.numCols = Except.ok true)) := by
  have hm : (2 : Int) = 0 ∨ (2 : Int) = 1 ∨ (2 : Int) = 2 := Or.inr (Or.inr rfl)
  constructor
  · rw [CheckForNeighbors_eq g 2 i j hm hi hj, neighborCount_mirror g i j hi hj]
  · intro halive
    have key : ∀ dRow dCol : Int, (dRow = -1 ∨ dRow = 0 ∨ dRow = 1) →
        (dCol = -1 ∨ dCol = 0 ∨ dCol = 1) → ¬(dRow = 0 ∧ dCol = 0) →
        clampCoord (i + dRow) g.numRows = i → clampCoord (j + dCol) g.numCols = j →
        IsDirectionOccupied g i j 2 dRow dCol g.numRows g.numCols = Except.ok true := by
      intro dRow dCol hdr hdc hz h1 h2
      rw [IsDirectionOccupied_eq g 2 i j dRow dCol hm hi hj hdr hdc]
      simp only [dirOccupied, if_neg hz, show ((2 : Int) = 0) = False from by simp,
        show ((2 : Int) = 1) = False from by simp, if_false, h1, h2, Int.toNat_ofNat]
      simpa using halive
    refine ⟨fun h => ?_, fun h => ?_, fun h => ?_, fun h => ?_⟩
    · exact key (-1) 0 (by simp) (by simp) (by simp)
        (by unfold clampCoord; split_ifs <;> omega) (by unfold clampCoord; split_ifs <;> omega)
    · exact key 1 0 (by simp) (by simp) (by simp)
        (by unfold clampCoord; split_ifs <;> omega) (by unfold clampCoord; split_ifs <;> omega)
    · exact key 0 (-1) (by simp) (by simp) (by simp)
        (by unfold clampCoord; split_ifs <;> omega) (by unfold clampCoord; split_ifs <;> omega)
    · exact key 0 1 (by simp) (by simp) (by simp)
        (by unfold clampCoord; split_ifs <;> omega) (by unfold clampCoord; split_ifs <;> omega)

/-- Witness for C13: the live corner (0, 0) of `cornerTrio`. -/
theorem CheckForNeighbors_mirror_witness :
    0 < cornerTrio.numRows ∧ 0 < cornerTrio.numCols ∧
    (CheckForNeighbors cornerTrio (0 : Nat) (0 : Nat) 2 cornerTrio.numRows cornerTrio.numCols =
      Except.ok (mirrorCount cornerTrio (0 : Nat) (0 : Nat) : Int) ∧
    (0 < cornerTrio.cell 0 0 →
      (0 = 0 → IsDirectionOccupied cornerTrio (0 : Nat) (0 : Nat) 2 (-1) 0 cornerTrio.numRows
        cornerTrio.numCols = Except.ok true) ∧
      (0 + 1 = cornerTrio.numRows → IsDirectionOccupied cornerTrio (0 : Nat) (0 : Nat) 2 1 0
        cornerTrio.numRows cornerTrio.numCols = Except.ok true) ∧
      (0 = 0 → IsDirectionOccupied cornerTrio (0 : Nat) (0 : Nat) 2 0 (-1) cornerTrio.numRows
        cornerTrio.numCols = Except.ok true) ∧
      (0 + 1 = cornerTrio.numCols → IsDirectionOccupied cornerTrio (0 : Nat) (0 : Nat) 2 0 1
        cornerTrio.numRows cornerTrio.numCols = Except.ok true))) :=
  ⟨by decide, by decide, CheckForNeighbors_mirror cornerTrio 0 0 (by decide) (by decide)⟩

/-- C14: for a cell whose whole Moore neighbourhood is on the grid
(`1 <= row <= rows - 2` and `1 <= col <= cols - 2`), `CheckForNeighbors` returns
the same count in modes 0 (PLATEAU), 1 (DONUT) and 2 (MIRROR). -/
theorem CheckForNeighbors_interior_agree (g : Grid) (i j : Nat)
    (hi1 : 1 ≤ i) (hi2 : i + 1 < g.numRows) (hj1 : 1 ≤ j) (hj2 : j + 1 < g.numCols) :
    ∃ n, CheckForNeighbors g i j 0 g.numRows g.numCols = Except.ok n ∧
      CheckForNeighbors g i j 1 g.numRows g.numCols = Except.ok n ∧
      CheckForNeighbors g i j 2 g.numRows g.numCols = Except.ok n := by
  have hi : i < g.numRows := by omega
  have hj : j < g.numCols := by omega
  refine ⟨neighborCount g 0 i j, CheckForNeighbors_eq g 0 i j (Or.inl rfl) hi hj, ?_, ?_⟩
  · rw [CheckForNeighbors_eq g 1 i j (Or.inr (Or.inl rfl)) hi hj,
      neighborCount_interior g 1 i j (Or.inr (Or.inl rfl)) hi1 hi2 hj1 hj2,
      neighborCount_interior g 0 i j (Or.inl rfl) hi1 hi2 hj1 hj2]
  · rw [CheckForNeighbors_eq g 2 i j (Or.inr (Or.inr rfl)) hi hj,
      neighborCount_interior g 2 i j (Or.inr (Or.inr rfl)) hi1 hi2 hj1 hj2,
      neighborCount_interior g 0 i j (Or.inl rfl) hi1 hi2 hj1 hj2]

/-- Witness for C14: the centre of `cornerTrio`. -/
theorem CheckForNeighbors_interior_agree_witness :
    1 ≤ 1 ∧ 1 + 1 < cornerTrio.numRows ∧ 1 ≤ 1 ∧ 1 + 1 < cornerTrio.numCols ∧
    ∃ n, CheckForNeighbors cornerTrio (1 : Nat) (1 : Nat) 0 cornerTrio.numRows
        cornerTrio.numCols = Except.ok n ∧
      CheckForNeighbors cornerTrio (1 : Nat) (1 : Nat) 1 cornerTrio.numRows
        cornerTrio.numCols = Except.ok n ∧
      CheckForNeighbors cornerTrio (1 : Nat) (1 : Nat) 2 cornerTrio.numRows
        cornerTrio.numCols = Except.ok n :=
  ⟨by decide, by decide, by decide, by decide,
    CheckForNeighbors_interior_agree cornerTrio 1 1 (by decide) (by decide) (by decide)
      (by decide)⟩

/-- C15: on a grid of at least 2 rows and 2 columns in which every cell is
alive, `CheckForNeighbors` for the corner (0, 0) returns 3 in mode 0 (PLATEAU),
8 in mode 1 (DONUT) and 8 in mode 2 (MIRROR). -/
theorem corner_counts_full_grid (g : Grid) (hrows : 2 ≤ g.numRows) (hcols : 2 ≤ g.numCols)
    (hall : ∀ i j, i < g.numRows → j < g.numCols → 0 < g.cell i j) :
    CheckForNeighbors g (0 : Nat) (0 : Nat) 0 g.numRows g.numCols = Except.ok 3 ∧
    CheckForNeighbors g (0 : Nat) (0 : Nat) 1 g.numRows g.numCols = Except.ok 8 ∧
    CheckForNeighbors g (0 : Nat) (0 : Nat) 2 g.numRows g.numCols = Except.ok 8 := by
  have hi : 0 < g.numRows := by omega
  have hj : 0 < g.numCols := by omega
  have hPQ : ∀ r c, r < g.numRows → c < g.numCols →
      decide (g.cell r c > 0) = ((fun _ => true) r && (fun _ => true) c) := by
    intro r c hr hc
    simpa using hall r c hr hc
  obtain ⟨hR0, hR1, hR2, hR⟩ := corner_line_facts g.numRows hrows
  obtain ⟨hC0, hC1, hC2, hC⟩ := corner_line_facts g.numCols hcols
  refine ⟨?_, ?_, ?_⟩
  · rw [CheckForNeighbors_eq g 0 0 0 (Or.inl rfl) hi hj,
      neighborCount_product g 0 0 0 _ _ (Or.inl rfl) hi hj hPQ, hR0, hC0,
      (hR 0 (Or.inl rfl)).1, (hR 0 (Or.inl rfl)).2, (hC 0 (Or.inl rfl)).1,
      (hC 0 (Or.inl rfl)).2]
    rfl
  · rw [CheckForNeighbors_eq g 1 0 0 (Or.inr (Or.inl rfl)) hi hj,
      neighborCount_product g 1 0 0 _ _ (Or.inr (Or.inl rfl)) hi hj hPQ, hR1, hC1,
      (hR 1 (Or.inr (Or.inl rfl))).1, (hR 1 (Or.inr (Or.inl rfl))).2,
      (hC 1 (Or.inr (Or.inl rfl))).1, (hC 1 (Or.inr (Or.inl rfl))).2]
    rfl
  · rw [CheckForNeighbors_eq g 2 0 0 (Or.inr (Or.inr rfl)) hi hj,
      neighborCount_product g 2 0 0 _ _ (Or.inr (Or.inr rfl)) hi hj hPQ, hR2, hC2,
      (hR 2 (Or.inr (Or.inr rfl))).1, (hR 2 (Or.inr (Or.inr rfl))).2,
      (hC 2 (Or.inr (Or.inr rfl))).1, (hC 2 (Or.inr (Or.inr rfl))).2]
    rfl

/-- Witness for C15: the 3 x 3 grid of cells of age 1. -/
theorem corner_counts_full_grid_witness :
    2 ≤ fullGrid.numRows ∧ 2 ≤ fullGrid.numCols ∧
    (∀ i j, i < fullGrid.numRows → j < fullGrid.numCols → 0 < fullGrid.cell i j) ∧
    (CheckForNeighbors fullGrid (0 : Nat) (0 : Nat) 0 fullGrid.numRows fullGrid.numCols =
      Except.ok 3 ∧
    CheckForNeighbors fullGrid (0 : Nat) (0 : Nat) 1 fullGrid.numRows fullGrid.numCols =
      Except.ok 8 ∧
    CheckForNeighbors fullGrid (0 : Nat) (0 : Nat) 2 fullGrid.numRows fullGrid.numCols =
      Except.ok 8) :=
  have hall : ∀ i j, i < fullGrid.numRows → j < fullGrid.numCols → 0 < fullGrid.cell i j := by
    intro i j hi hj
    have hi3 : i < 3 := hi
    have hj3 : j < 3 := hj
    interval_cases i <;> interval_cases j <;> decide
  ⟨by decide, by decide, hall, corner_counts_full_grid fullGrid (by decide) (by decide) hall⟩

/-- C16: for a cell of the grid and a mode in 0, 1, 2, `CheckForNeighbors`
returns a count between 0 and 8; the centre offset `(0, 0)` is never reported
as occupied, whatever the arguments. -/
theorem CheckForNeighbors_range (g : Grid) (simMode : Int) (i j : Nat)
    (hm : simMode = 0 ∨ simMode = 1 ∨ simMode = 2)
    (hi : i < g.numRows) (hj : j < g.numCols) :
    (∃ n, CheckForNeighbors g i j simMode g.numRows g.numCols = Except.ok n ∧ 0 ≤ n ∧ n ≤ 8) ∧
    ∀ row col mode nRows nCols : Int,
      IsDirectionOccupied g row col mode 0 0 nRows nCols = Except.ok false :=
  ⟨⟨neighborCount g simMode i j, CheckForNeighbors_eq g simMode i j hm hi hj,
      neighborCount_range g simMode i j⟩,
    fun row col mode nRows nCols => IsDirectionOccupied_center g row col mode nRows nCols⟩

/-- Witness for C16: the corner (0, 0) of the full grid in DONUT mode. -/
theorem CheckForNeighbors_range_witness :
    ((1 : Int) = 0 ∨ (1 : Int) = 1 ∨ (1 : Int) = 2) ∧ 0 < fullGrid.numRows ∧
    0 < fullGrid.numCols ∧
    ((∃ n, CheckForNeighbors fullGrid (0 : Nat) (0 : Nat) 1 fullGrid.numRows fullGrid.numCols =
      Except.ok n ∧ 0 ≤ n ∧ n ≤ 8) ∧
    ∀ row col mode nRows nCols : Int,
      IsDirectionOccupied fullGrid row col mode 0 0 nRows nCols = Except.ok false) :=
  ⟨Or.inr (Or.inl rfl), by decide, by decide,
    CheckForNeighbors_range fullGrid 1 0 0 (Or.inr (Or.inl rfl)) (by decide) (by decide)⟩

/-- C17: on a grid in which every cell is dead, `UpdateGrid` in mode 0, 1 or 2
returns `true` and leaves the grid as it is, every cell dead. -/
theorem dead_grid_stable (MaxAge : Int) (g : Grid) (simMode : Int)
    (hm : simMode = 0 ∨ simMode = 1 ∨ simMode = 2)
    (hdead : ∀ i j, i < g.numRows → j < g.numCols → g.cell i j = 0) :
    ∃ g2, UpdateGrid MaxAge g simMode = Except.ok (g2, true) ∧ g2 = g ∧
      ∀ i j, i < g2.numRows → j < g2.numCols → g2.cell i j = 0 := by
  refine ⟨g, ?_, rfl, hdead⟩
  refine still_life_fixed MaxAge g simMode hm (fun i j hi hj => Or.inl (hdead i j hi hj)) ?_
  rw [StillLife_iff_count g simMode hm]
  intro i j hi hj
  rw [neighborCount_dead g simMode i j hm hi hj hdead]
  exact ⟨fun h => absurd (hdead i j hi hj) h, fun _ => by decide⟩

/-- Witness for C17: the dead 3 x 3 grid in MIRROR mode. -/
theorem dead_grid_stable_witness :
    ((2 : Int) = 0 ∨ (2 : Int) = 1 ∨ (2 : Int) = 2) ∧
    (∀ i j, i < deadGrid.numRows → j < deadGrid.numCols → deadGrid.cell i j = 0) ∧
    ∃ g2, UpdateGrid 12 deadGrid 2 = Except.ok (g2, true) ∧ g2 = deadGrid ∧
      ∀ i j, i < g2.numRows → j < g2.numCols → g2.cell i j = 0 :=
  have hdead : ∀ i j, i < deadGrid.numRows → j < deadGrid.numCols → deadGrid.cell i j = 0 := by
    intro i j hi hj
    have hi3 : i < 3 := hi
    have hj3 : j < 3 := hj
    interval_cases i <;> interval_cases j <;> decide
  ⟨Or.inr (Or.inr rfl), hdead, dead_grid_stable 12 deadGrid 2 (Or.inr (Or.inr rfl)) hdead⟩

/-- C18: on a grid with at least one cell, `CheckForNeighbors` on a cell of the
grid and `UpdateGrid` end in the error "Bad simMode detected" exactly when
`simMode` is outside 0, 1, 2; for a mode in 0, 1, 2 both return normally. -/
theorem bad_mode_error_iff (MaxAge : Int) (g : Grid) (simMode : Int) (i j : Nat)
    (hi : i < g.numRows) (hj : j < g.numCols) :
    (CheckForNeighbors g i j simMode g.numRows g.numCols = Except.error "Bad simMode detected" ↔
      ¬(simMode = 0 ∨ simMode = 1 ∨ simMode = 2)) ∧
    (UpdateGrid MaxAge g simMode = Except.error "Bad simMode detected" ↔
      ¬(simMode = 0 ∨ simMode = 1 ∨ simMode = 2)) ∧
    ((simMode = 0 ∨ simMode = 1 ∨ simMode = 2) →
      (∃ n, CheckForNeighbors g i j simMode g.numRows g.numCols = Except.ok n) ∧
      ∃ r, UpdateGrid MaxAge g simMode = Except.ok r) := by
  refine ⟨⟨?_, ?_⟩, ⟨?_, ?_⟩, ?_⟩
  · intro h hm
    rw [CheckForNeighbors_eq g simMode i j hm hi hj] at h
    cases h
  · intro hm
    exact CheckForNeighbors_bad_mode g i j simMode g.numRows g.numCols hm
  · intro h hm
    rw [UpdateGrid_eq MaxAge g simMode hm] at h
    cases h
  · intro hm
    exact UpdateGrid_bad_mode MaxAge g simMode hm (by omega) (by omega)
  · intro hm
    exact ⟨⟨_, CheckForNeighbors_eq g simMode i j hm hi hj⟩, ⟨_, UpdateGrid_eq MaxAge g simMode hm⟩⟩

/-- Witness for C18: mode 7 on the bar of three cells. -/
theorem bad_mode_error_iff_witness :
    0 < bar3.numRows ∧ 0 < bar3.numCols ∧
    CheckForNeighbors bar3 (0 : Nat) (0 : Nat) 7 bar3.numRows bar3.numCols =
      Except.error "Bad simMode detected" ∧
    UpdateGrid 12 bar3 7 = Except.error "Bad simMode detected" :=
  ⟨by decide, by decide,
    (bad_mode_error_iff 12 bar3 7 0 0 (by decide) (by decide)).1.mpr (by decide),
    (bad_mode_error_iff 12 bar3 7 0 0 (by decide) (by decide)).2.1.mpr (by decide)⟩

/-- C19: for a cell of the grid, an offset in `-1, 0, 1` on each axis and a mode
in 0, 1, 2, the only grid read of `IsDirectionOccupied` is at `readTarget`,
which lies inside the grid, and the function returns normally (neither the
bounds error of the grid nor the bad-mode error); `UpdateGrid` returns normally
as well.  A grid access returns normally only inside the bounds. -/
theorem reads_in_bounds (MaxAge : Int) (g : Grid) (simMode : Int) (i j : Nat) (dRow dCol : Int)
    (hm : simMode = 0 ∨ simMode = 1 ∨ simMode = 2)
    (hi : i < g.numRows) (hj : j < g.numCols)
    (hdr : dRow = -1 ∨ dRow = 0 ∨ dRow = 1) (hdc : dCol = -1 ∨ dCol = 0 ∨ dCol = 1) :
    (readTarget simMode i j dRow dCol g.numRows g.numCols = none →
      IsDirectionOccupied g i j simMode dRow dCol g.numRows g.numCols = Except.ok false) ∧
    (∀ p, readTarget simMode i j dRow dCol g.numRows g.numCols = some p →
      IsDirectionOccupied g i j simMode dRow dCol g.numRows g.numCols =
          ((g.get p.1 p.2).bind fun v => Except.ok (decide (v > 0))) ∧
        0 ≤ p.1 ∧ p.1 < g.numRows ∧ 0 ≤ p.2 ∧ p.2 < g.numCols) ∧
    (∃ b, IsDirectionOccupied g i j simMode dRow dCol g.numRows g.numCols = Except.ok b) ∧
    (∃ r, UpdateGrid MaxAge g simMode = Except.ok r) ∧
    (∀ (h : Grid) (r c v : Int), h.get r c = Except.ok v →
      0 ≤ r ∧ r < h.numRows ∧ 0 ≤ c ∧ c < h.numCols) ∧
    (∀ (h h2 : Grid) (r c v : Int), h.set r c v = Except.ok h2 →
      0 ≤ r ∧ r < h.numRows ∧ 0 ≤ c ∧ c < h.numCols) :=
  ⟨(IsDirectionOccupied_reads g i j simMode dRow dCol g.numRows g.numCols hm).1,
    fun p hp =>
      ⟨(IsDirectionOccupied_reads g i j simMode dRow dCol g.numRows g.numCols hm).2 p hp,
        readTarget_inBounds simMode i j dRow dCol g.numRows g.numCols hi hj hdr hdc p hp⟩,
    ⟨_, IsDirectionOccupied_eq g simMode i j dRow dCol hm hi hj hdr hdc⟩,
    ⟨_, UpdateGrid_eq MaxAge g simMode hm⟩,
    fun h r c v hget => Grid.get_ok_inBounds h r c v hget,
    fun h h2 r c v hset => Grid.set_ok_inBounds h h2 r c v hset⟩

/-- Witness for C19: the corner (0, 0) of the bar grid, direction (-1, -1),
DONUT mode: the read is at (2, 2). -/
theorem reads_in_bounds_witness :
    ((1 : Int) = 0 ∨ (1 : Int) = 1 ∨ (1 : Int) = 2) ∧ 0 < bar3.numRows ∧ 0 < bar3.numCols ∧
    readTarget 1 (0 : Nat) (0 : Nat) (-1) (-1) bar3.numRows bar3.numCols = some (2, 2) ∧
    (IsDirectionOccupied bar3 (0 : Nat) (0 : Nat) 1 (-1) (-1) bar3.numRows bar3.numCols =
        ((bar3.get 2 2).bind fun v => Except.ok (decide (v > 0))) ∧
      (0 : Int) ≤ 2 ∧ (2 : Int) < bar3.numRows ∧ (0 : Int) ≤ 2 ∧ (2 : Int) < bar3.numCols) :=
  ⟨Or.inr (Or.inl rfl), by decide, by decide, by decide,
    (reads_in_bounds 12 bar3 1 0 0 (-1) (-1) (Or.inr (Or.inl rfl)) (by decide) (by decide)
      (by decide) (by decide)).2.1 (2, 2) (by decide)⟩

/-- C20: for a mode in 0, 1, 2, `UpdateGrid` returns a grid with the numbers of
rows and columns of the grid it was given. -/
theorem UpdateGrid_keeps_dimensions (MaxAge : Int) (g : Grid) (simMode : Int)
    (hm : simMode = 0 ∨ simMode = 1 ∨ simMode = 2) :
    ∃ g2 b, UpdateGrid MaxAge g simMode = Except.ok (g2, b) ∧
      g2.numRows = g.numRows ∧ g2.numCols = g.numCols :=
  ⟨_, _, UpdateGrid_eq MaxAge g simMode hm, rfl, rfl⟩

/-- Witness for C20: the bar of three cells in PLATEAU mode. -/
theorem UpdateGrid_keeps_dimensions_witness :
    ((0 : Int) = 0 ∨ (0 : Int) = 1 ∨ (0 : Int) = 2) ∧
    ∃ g2 b, UpdateGrid 12 bar3 0 = Except.ok (g2, b) ∧
      g2.numRows = bar3.numRows ∧ g2.numCols = bar3.numCols :=
  ⟨Or.inl rfl, UpdateGrid_keeps_dimensions 12 bar3 0 (Or.inl rfl)⟩

/-- C26: for `MaxAge >= 1`, a grid with ages in `[0, MaxAge]` and a mode in
0, 1, 2, a cell is alive after `UpdateGrid` exactly when its neighbour count
before the step is 3, or is 2 and the cell was alive; and a grid of the same
size with the same live cells (whatever their ages in `[0, MaxAge]`) has the
same live cells after the step. -/
theorem UpdateGrid_conway (MaxAge : Int) (g : Grid) (simMode : Int) (hM : 1 ≤ MaxAge)
    (hm : simMode = 0 ∨ simMode = 1 ∨ simMode = 2)
    (hrange : ∀ i j, i < g.numRows → j < g.numCols → 0 ≤ g.cell i j ∧ g.cell i j ≤ MaxAge) :
    ∃ g2 b, UpdateGrid MaxAge g simMode = Except.ok (g2, b) ∧
      (∀ i j : Nat, i < g.numRows → j < g.numCols →
        ∃ n, CheckForNeighbors g i j simMode g.numRows g.numCols = Except.ok n ∧
          (0 < g2.cell i j ↔ (n = 3 ∨ (n = 2 ∧ 0 < g.cell i j)))) ∧
      (∀ h : Grid, h.numRows = g.numRows → h.numCols = g.numCols →
        (∀ i j, i < g.numRows → j < g.numCols → 0 ≤ h.cell i j ∧ h.cell i j ≤ MaxAge) →
        (∀ i j, i < g.numRows → j < g.numCols → (0 < h.cell i j ↔ 0 < g.cell i j)) →
        ∃ h2 b2, UpdateGrid MaxAge h simMode = Except.ok (h2, b2) ∧
          ∀ i j, i < g.numRows → j < g.numCols → (0 < h2.cell i j ↔ 0 < g2.cell i j)) := by
  have hcell : ∀ (k : Grid), k.numRows = g.numRows → k.numCols = g.numCols →
      (∀ i j, i < g.numRows → j < g.numCols → 0 ≤ k.cell i j ∧ k.cell i j ≤ MaxAge) →
      ∀ i j : Nat, i < g.numRows → j < g.numCols →
        (0 < (simultaneousGrid MaxAge k simMode).cell i j ↔
          (neighborCount k simMode i j = 3 ∨ (neighborCount k simMode i j = 2 ∧ 0 < k.cell i j))) := by
    intro k hkr hkc hk i j hi hj
    rw [simultaneousGrid_cell_count MaxAge k simMode i j (hkr ▸ hi) (hkc ▸ hj)]
    exact ageTransition_alive_iff MaxAge _ _ hM (hk i j hi hj).1 (hk i j hi hj).2
  refine ⟨_, _, UpdateGrid_eq MaxAge g simMode hm, ?_, ?_⟩
  · intro i j hi hj
    exact ⟨_, CheckForNeighbors_eq g simMode i j hm hi hj, hcell g rfl rfl hrange i j hi hj⟩
  · intro h hr hc hhrange hpat
    refine ⟨_, _, UpdateGrid_eq MaxAge h simMode hm, ?_⟩
    intro i j hi hj
    rw [hcell g rfl rfl hrange i j hi hj, hcell h hr hc hhrange i j hi hj,
      neighborCount_pattern g h simMode i j hm hr hc hi hj hpat, hpat i j hi hj]

/-- Witness for C26: the bar of three cells, DONUT mode, compared with itself. -/
theorem UpdateGrid_conway_witness :
    (1 : Int) ≤ 12 ∧ ((1 : Int) = 0 ∨ (1 : Int) = 1 ∨ (1 : Int) = 2) ∧
    (∀ i j, i < bar3.numRows → j < bar3.numCols → 0 ≤ bar3.cell i j ∧ bar3.cell i j ≤ 12) ∧
    ∃ g2 b, UpdateGrid 12 bar3 1 = Except.ok (g2, b) ∧
      (∀ i j : Nat, i < bar3.numRows → j < bar3.numCols →
        ∃ n, CheckForNeighbors bar3 i j 1 bar3.numRows bar3.numCols = Except.ok n ∧
          (0 < g2.cell i j ↔ (n = 3 ∨ (n = 2 ∧ 0 < bar3.cell i j)))) ∧
      (∀ h : Grid, h.numRows = bar3.numRows → h.numCols = bar3.numCols →
        (∀ i j, i < bar3.numRows → j < bar3.numCols → 0 ≤ h.cell i j ∧ h.cell i j ≤ 12) →
        (∀ i j, i < bar3.numRows → j < bar3.numCols → (0 < h.cell i j ↔ 0 < bar3.cell i j)) →
        ∃ h2 b2, UpdateGrid 12 h 1 = Except.ok (h2, b2) ∧
          ∀ i j, i < bar3.numRows → j < bar3.numCols → (0 < h2.cell i j ↔ 0 < g2.cell i j)) :=
  have hb : ∀ i j, i < bar3.numRows → j < bar3.numCols →
      0 ≤ bar3.cell i j ∧ bar3.cell i j ≤ 12 := by
    intro i j hi hj
    have hi3 : i < 3 := hi
    have hj3 : j < 3 := hj
    interval_cases i <;> interval_cases j <;> decide
  ⟨by decide, Or.inr (Or.inl rfl), hb,
    UpdateGrid_conway 12 bar3 1 (by decide) (Or.inr (Or.inl rfl)) hb⟩

/-- C27: for a mode in 0, 1, 2, when `UpdateGrid` leaves the grid as it was, it
returns `true` (for every grid, in particular for ages in `[0, MaxAge]`). -/
theorem fixed_point_reported (MaxAge : Int) (g : Grid) (simMode : Int) (b : Bool)
    (hm : simMode = 0 ∨ simMode = 1 ∨ simMode = 2)
    (hfix : UpdateGrid MaxAge g simMode = Except.ok (g, b)) : b = true := by
  rw [UpdateGrid_eq MaxAge g simMode hm] at hfix
  injection hfix with hfix
  simp only [simultaneousUpdate, Prod.mk.injEq] at hfix
  obtain ⟨hg, hb⟩ := hfix
  rw [← hb, simultaneousStable_iff, hg]
  intro i j hi hj
  have hc := simultaneousGrid_cell_count MaxAge g simMode i j hi hj
  rw [hg] at hc
  exact ageTransition_fixed_not_transition MaxAge _ _ hc.symm

/-- Witness for C27: the block of age 12 with `MaxAge = 12`, PLATEAU mode. -/
theorem fixed_point_reported_witness :
    ((0 : Int) = 0 ∨ (0 : Int) = 1 ∨ (0 : Int) = 2) ∧
    UpdateGrid 12 elderBlock 0 = Except.ok (elderBlock, true) ∧ true = true :=
  ⟨Or.inl rfl, still_life_fixed 12 elderBlock 0 (Or.inl rfl) elderBlock_cells elderBlock_still,
    fixed_point_reported 12 elderBlock 0 true (Or.inl rfl)
      (still_life_fixed 12 elderBlock 0 (Or.inl rfl) elderBlock_cells elderBlock_still)⟩

/-- C28: for a mode in 0, 1, 2, `UpdateGrid` on the transposed grid returns the
transpose of the grid that `UpdateGrid` returns on the original, with the same
flag. -/
theorem UpdateGrid_transpose (MaxAge : Int) (g : Grid) (simMode : Int)
    (hm : simMode = 0 ∨ simMode = 1 ∨ simMode = 2) :
    ∃ g2 b, UpdateGrid MaxAge g simMode = Except.ok (g2, b) ∧
      UpdateGrid MaxAge g.transpose simMode = Except.ok (g2.transpose, b) := by
  refine ⟨_, _, UpdateGrid_eq MaxAge g simMode hm, ?_⟩
  rw [UpdateGrid_eq MaxAge g.transpose simMode hm]
  simp only [simultaneousUpdate, simultaneousGrid_transpose, simultaneousStable_transpose]

/-- Witness for C28: the bar of three cells in MIRROR mode. -/
theorem UpdateGrid_transpose_witness :
    ((2 : Int) = 0 ∨ (2 : Int) = 1 ∨ (2 : Int) = 2) ∧
    ∃ g2 b, UpdateGrid 12 bar3 2 = Except.ok (g2, b) ∧
      UpdateGrid 12 bar3.transpose 2 = Except.ok (g2.transpose, b) :=
  ⟨Or.inr (Or.inr rfl), UpdateGrid_transpose 12 bar3 2 (Or.inr (Or.inr rfl))⟩

/-- C24: whatever values in range the calls of `RandomInteger` return,
`GenerateRandomGrid` returns a grid of 70 rows and 90 columns in which every
cell is 0 or an age in `[1, 12]`. -/
theorem GenerateRandomGrid_cells (RandomInteger : Nat → Int → Int → Int)
    (fresh : Nat → Nat → Int)
    (hrand : ∀ n, (0 ≤ RandomInteger n 0 1 ∧ RandomInteger n 0 1 ≤ 1) ∧
      (1 ≤ RandomInteger n 1 12 ∧ RandomInteger n 1 12 ≤ 12)) :
    ∃ g, GenerateRandomGrid RandomInteger fresh = Except.ok g ∧
      g.numRows = 70 ∧ g.numCols = 90 ∧
      ∀ i j, i < 70 → j < 90 → g.cell i j = 0 ∨ (1 ≤ g.cell i j ∧ g.cell i j ≤ 12) := by
  have h0 : RandInv 70 90 0 0
      (({ numRows := 70, numCols := 90, cell := fresh } : Grid), 0) := by
    refine ⟨rfl, rfl, ?_⟩
    intro r c hrc
    omega
  obtain ⟨s2, hs2, hr, hc, hcell⟩ := foldlM_range_inv
    (fun st i => (List.range 90).foldlM (fun st j => randomCell RandomInteger i j st) st)
    (fun i st => RandInv 70 90 i 0 st) 70
    (fun k hk s hs => randomRow_step RandomInteger 70 90 k hrand hk s hs) _ h0
  refine ⟨s2.1, ?_, hr, hc, ?_⟩
  · have hres : Grid.resize fresh MAX_ROW MAX_COL =
        Except.ok { numRows := 70, numCols := 90, cell := fresh } := by
      simp [Grid.resize, MAX_ROW, MAX_COL]
    simp only [GenerateRandomGrid, hres, Except.bind, hs2]
  · intro i j hi hj
    exact hcell i j (by omega)

/-- Witness for C24: every call of `RandomInteger` returns its upper bound. -/
theorem GenerateRandomGrid_cells_witness :
    (∀ n : Nat, (0 ≤ upperDraw n 0 1 ∧ upperDraw n 0 1 ≤ 1) ∧
      (1 ≤ upperDraw n 1 12 ∧ upperDraw n 1 12 ≤ 12)) ∧
    ∃ g, GenerateRandomGrid upperDraw (fun _ _ => 0) = Except.ok g ∧
      g.numRows = 70 ∧ g.numCols = 90 ∧
      ∀ i j, i < 70 → j < 90 → g.cell i j = 0 ∨ (1 ≤ g.cell i j ∧ g.cell i j ≤ 12) :=
  have h : ∀ n : Nat, (0 ≤ upperDraw n 0 1 ∧ upperDraw n 0 1 ≤ 1) ∧
      (1 ≤ upperDraw n 1 12 ∧ upperDraw n 1 12 ≤ 12) := by
    intro n
    simp [upperDraw]
  ⟨h, GenerateRandomGrid_cells upperDraw (fun _ _ => 0) h⟩

/-- C21: on a setup description made of the line for `R`, the line for `C` and
`R` row-strings of length `C` that begin with `X` or `-` (with `R`, `C` at least
1), `GetGridFromFile` returns a grid of `R` rows and `C` columns whose cell
`(r, i)` is 1 when character `i` of row-string `r` is `X` and 0 otherwise.
Lengths and indices are those of the `std::string`, in bytes. -/
theorem GetGridFromFile_wellformed (StringToInteger : String → Except String Int)
    (fresh : Nat → Nat → Int) (R C : Nat) (lineR lineC : String) (rows : List String)
    (hR : 1 ≤ R) (hC : 1 ≤ C)
    (hdigR : (charAt lineR 0).isDigit = true) (hdigC : (charAt lineC 0).isDigit = true)
    (hparseR : StringToInteger lineR = Except.ok (R : Int))
    (hparseC : StringToInteger lineC = Except.ok (C : Int))
    (hlen : rows.length = R)
    (hrows : ∀ s ∈ rows, (lineBytes s).length = C ∧ (charAt s 0 = 'X' ∨ charAt s 0 = '-')) :
    ∃ g, GetGridFromFile StringToInteger fresh (lineR :: lineC :: rows) = Except.ok g ∧
      g.numRows = R ∧ g.numCols = C ∧
      ∀ r i, r < R → i < C →
        g.cell r i = if charAt (rows.getD r "") i = 'X' then 1 else 0 := by
  obtain ⟨hR1, hR2⟩ := digit_not_marker _ hdigR
  obtain ⟨hC1, hC2⟩ := digit_not_marker _ hdigC
  have hres : Grid.resize fresh (R : Int) (C : Int) =
      Except.ok { numRows := R, numCols := C, cell := fresh } := by
    have : ¬((R : Int) ≤ 0 ∨ (C : Int) ≤ 0) := by omega
    simp only [Grid.resize, if_neg this, Int.toNat_ofNat]
  obtain ⟨st2, hst2, hr2, hc2, hcell2⟩ := loader_rows StringToInteger fresh rows
    { theGrid := { numRows := R, numCols := C, cell := fresh }, row := R, gotRow := true,
      currentRow := ((0 : Nat) : Int) } 0 rfl (by simp only [hlen]; omega)
    (fun s hs => (hrows s hs).2)
  refine ⟨st2.theGrid, ?_, hr2, hc2, ?_⟩
  · simp only [GetGridFromFile, List.foldlM_cons, loaderStep, if_neg hR1, if_neg hR2,
      if_neg hC1, if_neg hC2, hparseR, hparseC, Except.bind, bind, hres]
    simp only [Bool.false_eq_true, if_false, if_true]
    have h0 : ((0 : Nat) : Int) = 0 := rfl
    rw [h0] at hst2
    rw [hres]
    simp only
    rw [hst2]
  · intro r i hr hi
    have := hcell2 r i hi
    simp only [hlen] at this
    rw [this, if_pos (by omega), Nat.sub_zero]
    rfl

/-- Witness for C21: the 2 x 4 description `2`, `4`, `-éX`, `X---`, whose first
row-string has 4 bytes. -/
theorem GetGridFromFile_wellformed_witness :
    1 ≤ 2 ∧ 1 ≤ 4 ∧ (charAt "2" 0).isDigit = true ∧ (charAt "4" 0).isDigit = true ∧
    parseDecimal "2" = Except.ok ((2 : Nat) : Int) ∧
    parseDecimal "4" = Except.ok ((4 : Nat) : Int) ∧
    setupRowsWide.length = 2 ∧
    (∀ s ∈ setupRowsWide,
      (lineBytes s).length = 4 ∧ (charAt s 0 = 'X' ∨ charAt s 0 = '-')) ∧
    ∃ g, GetGridFromFile parseDecimal (fun _ _ => 7) ("2" :: "4" :: setupRowsWide) =
        Except.ok g ∧
      g.numRows = 2 ∧ g.numCols = 4 ∧
      ∀ r i, r < 2 → i < 4 →
        g.cell r i = if charAt (setupRowsWide.getD r "") i = 'X' then 1 else 0 :=
  ⟨by decide, by decide, by decide, by decide, rfl, rfl, by decide, by decide,
    GetGridFromFile_wellformed parseDecimal (fun _ _ => 7) 2 4 "2" "4" setupRowsWide
      (by decide) (by decide) (by decide) (by decide) rfl rfl (by decide) (by decide)⟩

/-- C22: lines whose first character is `#` are ignored by `GetGridFromFile`:
a list of lines and the list obtained by removing its comment lines give the
same result; hence a description and the same description with comment lines
inserted anywhere give the same grid. -/
theorem GetGridFromFile_comments (StringToInteger : String → Except String Int)
    (fresh : Nat → Nat → Int) (lines commented : List String)
    (h : commented.filter (fun l => !isComment l) = lines) :
    GetGridFromFile StringToInteger fresh commented =
      GetGridFromFile StringToInteger fresh lines := by
  subst h
  simp only [GetGridFromFile]
  rw [loader_filter_comments StringToInteger fresh commented]

/-- Witness for C22: `setupLines` with five comment lines inserted. -/
theorem GetGridFromFile_comments_witness :
    setupCommented.filter (fun l => !isComment l) = setupLines ∧
    GetGridFromFile parseDecimal (fun _ _ => 7) setupCommented =
      GetGridFromFile parseDecimal (fun _ _ => 7) setupLines :=
  ⟨by decide, GetGridFromFile_comments parseDecimal (fun _ _ => 7) setupLines setupCommented
    (by decide)⟩

/-- C23, evaluation at the failing input: `GetSimSpeed` calls `AskForChoice`
with 4 numeric choices; when the user types 4 the value returned is 4, which is
not between 0 and 3; with the alphabetic choices of `GetSimMode` the answer `d`
gives the index 1. -/
theorem AskForChoice_numeric_returns_label :
    speedChoices.length = 4 ∧
    GetSimSpeed [4] [] = Except.ok (some 4) ∧
    AskForChoice "You choose how fast to run the simulation." speedChoices [4] [] =
      Except.ok (some 4) ∧
    ¬((0 : Int) ≤ 4 ∧ (4 : Int) ≤ 4 - 1) ∧
    GetSimSpeed [0, 5, 1] [] = Except.ok (some 1) ∧
    GetSimMode [] ["x", "d"] = Except.ok (some 1) :=
  ⟨rfl, rfl, rfl, by decide, rfl, rfl⟩

/-- C25, evaluation at the failing input: with the comparison functions of
graphpriv.cpp, which graph.h includes, two arcs at different addresses that
connect the same pair of nodes compare as 0, and so do two nodes at different
addresses that have the same name; the functions of graphimpl.cpp return a
non-zero value for the same arcs and nodes. -/
theorem ArcCompare_distinct_arcs_zero :
    arcRoad.addr ≠ arcRail.addr ∧ arcRoad.start = arcRail.start ∧
    arcRoad.finish = arcRail.finish ∧ ArcCompare arcRoad arcRail = 0 ∧
    nodeA.addr ≠ nodeA2.addr ∧ NodeCompare nodeA nodeA2 = 0 ∧
    GraphImpl.ArcCompare arcRoad arcRail ≠ 0 ∧ GraphImpl.NodeCompare nodeA nodeA2 ≠ 0 :=
  ⟨by decide, rfl, rfl, by decide, by decide, by decide, by decide, by decide⟩

end Life
